import Mathlib

/-!
Verification development for the SIGINT pipeline: a shallow embedding of the
pre-LLM filter pipeline (`lambdas/shared/feed_fetcher.py`), the correlation
engine (`lambdas/shared/correlation_engine.py`), the unified LLM analysis
entry points (`lambdas/shared/llm_client.py`), and the reporters handler's
selection-to-NewsItem conversion (`lambdas/reporters/handler.py`).

Modelling conventions:
- Timestamps (`datetime`) are integers counting seconds (UTC). `timedelta(minutes=m)`
  is `m * 60` seconds, `timedelta(hours=h)` is `h * 3600` seconds, and
  `.total_seconds() / 3600` is rational division by 3600.
- Python floats are modelled as rationals (`ℚ`).
- Python `set[str]` values are modelled as duplicate-free `List String` values
  built only through `sAdd` / `sUnion` / `sInter`, so that `len` agrees with
  `List.length`. Python's set iteration order is unspecified; where the code
  iterates a set or converts it to a list without sorting, we iterate our
  canonical (construction-order) list.
- Wall-clock reads (`datetime.now(UTC)`) become an explicit `now` argument.
- External library calls (`hashlib.md5(...).hexdigest()`, float `"%.1f"`
  rendering, `json.loads`, and the network LLM call) are threaded in as
  opaque function parameters / arguments; no verified property depends on
  their values.
- Code that can raise (`min()` of an empty sequence, `Urgency(...)` on an
  unknown string, pydantic numeric-bound validation) returns `Except PyErr`.
-/

namespace Sigint

/-- Python exception kinds raised by the embedded code. -/
inductive PyErr where
  | valueError
  | validationError
  deriving DecidableEq, Repr

instance {ε α : Type} [DecidableEq ε] [DecidableEq α] :
    DecidableEq (Except ε α) := fun x y =>
  match x, y with
  | .ok a, .ok b =>
    if h : a = b then isTrue (by rw [h])
    else isFalse (fun hc => by cases hc; exact h rfl)
  | .ok _, .error _ => isFalse (fun hc => by cases hc)
  | .error _, .ok _ => isFalse (fun hc => by cases hc)
  | .error a, .error b =>
    if h : a = b then isTrue (by rw [h])
    else isFalse (fun hc => by cases hc; exact h rfl)

/-! ### Character classes and string helpers

Python's `re` classes restricted to ASCII input (all repository inputs that the
claims quantify over are ASCII; `\w` is `[a-zA-Z0-9_]`, `\s` is ASCII
whitespace). -/

def isWordChar (c : Char) : Bool := c.isAlphanum || c = '_'

def pyIsSpace (c : Char) : Bool :=
  c = ' ' || c = '\t' || c = '\n' || c = '\r' || c = Char.ofNat 11 || c = Char.ofNat 12

/-- `str.lower()` (ASCII). -/
def strLower (s : String) : String := String.mk (s.toList.map Char.toLower)

/-- `re.findall(r'\w+', s)`: the maximal runs of word characters, in order. -/
def findWordRuns (fuel : ℕ) (cs : List Char) : List String :=
  match fuel with
  | 0 => []
  | fuel + 1 =>
    match cs with
    | [] => []
    | c :: rest =>
      if isWordChar c then
        let run := List.takeWhile isWordChar (c :: rest)
        let remaining := List.dropWhile isWordChar (c :: rest)
        String.mk run :: findWordRuns fuel remaining
      else
        findWordRuns fuel rest

/-- Python `needle in hay` substring test. -/
def strContainsSub (hay needle : String) : Bool :=
  (hay.toList.tails).any (fun t => needle.toList.isPrefixOf t)

/-! ### Python `set[str]` as duplicate-free lists -/

/-- `s.add(x)` (also the per-element step of `s.update(it)`). -/
def sAdd (s : List String) (x : String) : List String :=
  if x ∈ s then s else s ++ [x]

/-- `a | b` for sets represented as nodup lists. -/
def sUnion (a b : List String) : List String :=
  a ++ b.filter (fun x => !(x ∈ a : Bool))

/-- `a & b` for sets represented as nodup lists. -/
def sInter (a b : List String) : List String :=
  a.filter (fun x => (x ∈ b : Bool))

/-- `set(it)` for a list with possible duplicates (first occurrence kept). -/
def sOfList (l : List String) : List String := l.dedup

/-! ### `feed_fetcher.py`: data model and the pre-LLM filter pipeline -/

/-- `RawFeedItem` (dataclass). `raw_data: dict[str, Any]` is represented by the
three keys the embedded code reads (`_parsed_probability`, `_source`,
`_parsed_volume`); absent keys are `none`. -/
structure RawFeedItem where
  id : String
  title : String
  link : String
  description : String
  source : String
  source_url : String
  published : Option ℤ
  raw_parsed_probability : Option ℚ := none
  raw_source : Option String := none
  raw_parsed_volume : Option String := none
  deriving DecidableEq, Repr

/-- `FeedFetcher.filter_by_age` (clock passed explicitly as `now`). -/
def filter_by_age (now : ℤ) (items : List RawFeedItem) (max_age_hours : ℤ) :
    List RawFeedItem :=
  let clamped := max 1 (min max_age_hours 720)
  let cutoff := now - clamped * 3600
  items.filter (fun item =>
    match item.published with
    | none => true
    | some p => cutoff < p)

/-- `FeedFetcher._jaccard_similarity`. -/
def jaccard_similarity (str1 str2 : String) : ℚ :=
  let words1 := sOfList (findWordRuns ((strLower str1).length + 1) (strLower str1).toList)
  let words2 := sOfList (findWordRuns ((strLower str2).length + 1) (strLower str2).toList)
  if words1 = [] ∨ words2 = [] then 0
  else ((sInter words1 words2).length : ℚ) / ((sUnion words1 words2).length : ℚ)

/-- The loop of `filter_similar_titles`: `filtered` accumulates kept items. -/
def fst_loop (similarity_threshold : ℚ) :
    List RawFeedItem → List RawFeedItem → List RawFeedItem
  | filtered, [] => filtered
  | filtered, item :: rest =>
    if filtered.any (fun kept =>
        similarity_threshold ≤ jaccard_similarity item.title kept.title) then
      fst_loop similarity_threshold filtered rest
    else
      fst_loop similarity_threshold (filtered ++ [item]) rest

/-- `FeedFetcher.filter_similar_titles`. -/
def filter_similar_titles (items : List RawFeedItem)
    (similarity_threshold : ℚ) : List RawFeedItem :=
  if items = [] then items
  else fst_loop similarity_threshold [] items

/-- The loop of `limit_per_source`; `counts` is the `source_counts` dict
(read only through `.get(source, 0)`, so a function suffices). -/
def lps_loop (max_per_source : ℤ) :
    (String → ℕ) → List RawFeedItem → List RawFeedItem
  | _, [] => []
  | counts, item :: rest =>
    let c := counts item.source
    if (c : ℤ) < max_per_source then
      item :: lps_loop max_per_source
        (fun s => if s = item.source then c + 1 else counts s) rest
    else
      lps_loop max_per_source counts rest

/-- `FeedFetcher.limit_per_source`. -/
def limit_per_source (items : List RawFeedItem) (max_per_source : ℤ) :
    List RawFeedItem :=
  lps_loop max_per_source (fun _ => 0) items

/-- `FeedFetcher.apply_pre_llm_filters`: age filter, then title similarity,
then source diversity. -/
def apply_pre_llm_filters (now : ℤ) (items : List RawFeedItem)
    (max_age_hours : ℤ) (similarity_threshold : ℚ) (max_per_source : ℤ) :
    List RawFeedItem :=
  limit_per_source
    (filter_similar_titles (filter_by_age now items max_age_hours)
      similarity_threshold)
    max_per_source

/-! ### A stable sort (Python `list.sort` / `sorted` are stable)

`pySortBy le` is insertion sort keeping an earlier element before a later one
whenever `le earlier later`; with `le` the (possibly reversed) key comparison
this computes exactly the stable sort Python produces. -/

def pyInsertSorted {α : Type} (le : α → α → Bool) (x : α) :
    List α → List α
  | [] => [x]
  | y :: ys => if le x y then x :: y :: ys else y :: pyInsertSorted le x ys

def pySortBy {α : Type} (le : α → α → Bool) : List α → List α
  | [] => []
  | x :: xs => pyInsertSorted le x (pySortBy le xs)

/-- `sorted(strings)` (Python string order = code-point lexicographic). -/
def pySortStr (l : List String) : List String :=
  pySortBy (fun a b => a ≤ b) l

/-! ### `CorrelationEngine._extract_keywords`

`re.findall(r'\b[A-Z][a-zA-Z0-9]*(?:\s+[A-Z][a-zA-Z0-9]*)*\b', text)` is a
left-to-right scan: at a word boundary, a capitalized alphanumeric run,
greedily extended across pure-whitespace gaps onto further capitalized runs;
a run abutting `_` makes the attempt fail (no word boundary).  The scanners
carry fuel `text.length + 1`, strictly more than the number of scan steps. -/

def capsChainExtend (fuel : ℕ) (acc : List Char) (rest : List Char) :
    List Char × List Char :=
  match fuel with
  | 0 => (acc, rest)
  | fuel + 1 =>
    let sp := rest.takeWhile pyIsSpace
    let r1 := rest.dropWhile pyIsSpace
    if sp = [] then (acc, rest)
    else
      match r1 with
      | [] => (acc, rest)
      | c :: _ =>
        if c.isUpper then
          let w := r1.takeWhile Char.isAlphanum
          let r2 := r1.dropWhile Char.isAlphanum
          match r2 with
          | '_' :: _ => (acc, rest)
          | _ => capsChainExtend fuel (acc ++ sp ++ w) r2
        else (acc, rest)

/-- Attempt the capitalized-phrase match at a position whose character is
upper-case and at a word boundary; `none` when the first run abuts `_`. -/
def capsTryMatch (fuel : ℕ) (cs : List Char) : Option (List Char × List Char) :=
  let w := cs.takeWhile Char.isAlphanum
  let r := cs.dropWhile Char.isAlphanum
  match r with
  | '_' :: _ => none
  | _ => some (capsChainExtend fuel w r)

def capsScan (fuel : ℕ) (prevIsWord : Bool) (cs : List Char) :
    List (List Char) :=
  match fuel with
  | 0 => []
  | fuel + 1 =>
    match cs with
    | [] => []
    | c :: rest =>
      if !prevIsWord && c.isUpper then
        match capsTryMatch fuel (c :: rest) with
        | some (m, rest') => m :: capsScan fuel true rest'
        | none => capsScan fuel (isWordChar c) rest
      else capsScan fuel (isWordChar c) rest

/-- `re.findall(r'"([^"]+)"', text)`: non-overlapping quoted substrings with
non-empty content. -/
def quotedScan (fuel : ℕ) (cs : List Char) : List (List Char) :=
  match fuel with
  | 0 => []
  | fuel + 1 =>
    match cs with
    | [] => []
    | c :: rest =>
      if c = '"' then
        let content := rest.takeWhile (fun d => !(d = '"' : Bool))
        let r := rest.dropWhile (fun d => !(d = '"' : Bool))
        match r with
        | [] => quotedScan fuel rest
        | _ :: r2 =>
          if content = [] then quotedScan fuel rest
          else content :: quotedScan fuel r2
      else quotedScan fuel rest

def tech_terms : List String :=
  ["gpt", "claude", "gemini", "llama", "openai", "anthropic",
   "deepmind", "meta ai", "agi", "llm", "transformer",
   "neural", "machine learning", "deep learning"]

/-- `CorrelationEngine._extract_keywords` (returns a Python set; here its
insertion-order nodup list: capitalized matches of length > 2, quoted terms,
then known tech terms, all lower-cased). -/
def extract_keywords (text : String) : List String :=
  if text = "" then []
  else
    let caps := ((capsScan (text.length + 1) false text.toList).filter
        (fun m => 2 < m.length)).map (fun m => strLower (String.mk m))
    let quoted := (quotedScan (text.length + 1) text.toList).map
        (fun m => strLower (String.mk m))
    let tech := tech_terms.filter
        (fun term => strContainsSub (strLower text) term)
    (caps ++ quoted ++ tech).foldl sAdd []

/-! ### `models.py`: the pydantic data model

Pydantic `Field(ge=…, le=…)` bounds become explicit `validated` smart
constructors returning `Except PyErr`; a model with no constrained field read
or written by the embedded code is a plain structure.  `default_factory`
timestamp fields (`fetched_at`, `first_seen`, `related_items`) that no
embedded function reads are omitted. -/

inductive Urgency where
  | breaking | high | normal | low
  deriving DecidableEq, Repr

/-- The `Urgency(value)` enum constructor: `ValueError` on an unknown string. -/
def Urgency.ofString : String → Option Urgency
  | "breaking" => some .breaking
  | "high" => some .high
  | "normal" => some .normal
  | "low" => some .low
  | _ => none

inductive Category where
  | geopolitical | ai_ml | deep_tech | crypto_finance | markets | narrative
  | breaking
  deriving DecidableEq, Repr

inductive SourceType where
  | rss | twitter | polymarket | ticker
  deriving DecidableEq, Repr

structure TweetItem where
  tweet_id : String
  author_handle : String
  author_id : String
  content : String
  created_at : ℤ
  hashtags : List String := []
  mentions : List String := []
  cashtags : List String := []
  retweet_count : ℤ := 0
  like_count : ℤ := 0
  reply_count : ℤ := 0
  quote_count : ℤ := 0
  source_type : String := "list"
  deriving DecidableEq, Repr

/-- `TweetItem.all_entities`: hashtags + mentions + cashtags. -/
def TweetItem.all_entities (t : TweetItem) : List String :=
  t.hashtags ++ t.mentions ++ t.cashtags

structure PredictionMarket where
  question : String
  probability : Option ℚ := none
  source : String
  volume : Option String := none
  url : Option String := none
  end_date : Option String := none
  deriving DecidableEq, Repr

/-- Pydantic bound `probability ∈ [0,1]` when present. -/
def PredictionMarket.boundsOk (p : PredictionMarket) : Bool :=
  match p.probability with
  | none => true
  | some q => 0 ≤ q ∧ q ≤ 1

structure NewsItem where
  id : String
  title : String
  summary : String
  url : String
  source : String
  source_url : String
  category : Category
  urgency : Urgency := .normal
  relevance_score : ℚ
  published_at : Option ℤ := none
  entities : List String := []
  tags : List String := []
  prediction_market : Option PredictionMarket := none
  deriving DecidableEq, Repr

/-- Pydantic validation of `NewsItem`: `relevance_score ∈ [0,1]` and the
nested market's bounds. -/
def NewsItem.validated (n : NewsItem) : Except PyErr NewsItem :=
  if 0 ≤ n.relevance_score ∧ n.relevance_score ≤ 1 ∧
      n.prediction_market.all PredictionMarket.boundsOk = true then
    .ok n
  else .error .validationError

structure VelocitySpike where
  entity : String
  velocity : ℚ
  baseline_velocity : ℚ := 0
  magnitude : ℚ
  spike_start : ℤ
  spike_peak : ℤ
  sample_tweet_ids : List String := []
  triggered_search : Bool := false
  deriving DecidableEq, Repr

/-- Pydantic bound `magnitude ≥ 1.0` on `VelocitySpike`. -/
def VelocitySpike.validated (v : VelocitySpike) : Except PyErr VelocitySpike :=
  if 1 ≤ v.magnitude then .ok v else .error .validationError

structure CorrelatedNarrative where
  correlation_id : String
  title : String
  tweet_ids : List String := []
  news_article_ids : List String := []
  keywords : List String := []
  hashtags : List String := []
  tweet_spike_time : Option ℤ := none
  news_publish_time : Option ℤ := none
  lead_lag_hours : Option ℚ := none
  confidence_score : ℚ := 0
  amplification_factor : ℚ := 1
  detected_at : ℤ
  evidence_summary : String := ""
  questions : List String := []
  deriving DecidableEq, Repr

/-- Pydantic bounds on `CorrelatedNarrative`: `confidence_score ∈ [0,1]`,
`amplification_factor ≥ 0`. -/
def CorrelatedNarrative.validated (c : CorrelatedNarrative) :
    Except PyErr CorrelatedNarrative :=
  if 0 ≤ c.confidence_score ∧ c.confidence_score ≤ 1 ∧
      0 ≤ c.amplification_factor then
    .ok c
  else .error .validationError

structure TwitterSignal where
  entity : String
  velocity : ℚ
  velocity_r : ℚ := 1
  sample_tweets : List String := []
  top_accounts : List String := []
  is_spike : Bool := false
  deriving DecidableEq, Repr

structure AnalyzedItem where
  id : String
  title : String
  summary : String
  url : String
  source : String
  source_url : String := ""
  category : Category
  urgency : Urgency := .normal
  relevance_score : ℚ
  published_at : Option ℤ := none
  analyzed_at : ℤ
  entities : List String := []
  source_tags : List SourceType := []
  twitter_boost : Option ℚ := none
  twitter_signals : List String := []
  market_probability : Option ℚ := none
  market_question : Option String := none
  confidence : ℚ := 1/2
  prediction_market : Option PredictionMarket := none
  deriving DecidableEq, Repr

/-- Pydantic bounds on `AnalyzedItem`: `relevance_score`, `twitter_boost`,
`market_probability`, `confidence` all in `[0,1]` (optionals when present),
plus nested market bounds. -/
def AnalyzedItem.validated (a : AnalyzedItem) : Except PyErr AnalyzedItem :=
  if 0 ≤ a.relevance_score ∧ a.relevance_score ≤ 1 ∧
      a.twitter_boost.all (fun b => decide (0 ≤ b ∧ b ≤ 1)) = true ∧
      a.market_probability.all (fun p => decide (0 ≤ p ∧ p ≤ 1)) = true ∧
      0 ≤ a.confidence ∧ a.confidence ≤ 1 ∧
      a.prediction_market.all PredictionMarket.boundsOk = true then
    .ok a
  else .error .validationError

structure UnifiedAnalysisResult where
  category : Category
  items : List AnalyzedItem
  analyzed_at : ℤ
  sources_used : List SourceType := []
  sources_missing : List SourceType := []
  rss_count : ℤ := 0
  twitter_signals_count : ℤ := 0
  markets_count : ℤ := 0
  items_boosted : ℤ := 0
  llm_model : String := ""
  llm_tokens : ℤ := 0
  analysis_duration_ms : ℤ := 0
  agent_notes : Option String := none
  deriving DecidableEq, Repr

/-! ### `correlation_engine.py` -/

/-- `CORRELATION_CONFIG`, possibly overridden per engine instance
(`{**CORRELATION_CONFIG, **(config or {})}`). -/
structure CorrelationConfig where
  velocity_window_minutes : ℤ := 60
  baseline_window_hours : ℤ := 24
  spike_threshold : ℚ := 2
  entity_match_threshold : ℚ := 3/10
  temporal_window_hours : ℤ := 6
  min_confidence : ℚ := 2/5
  deriving DecidableEq, Repr

def CORRELATION_CONFIG : CorrelationConfig := {}

/-- Opaque standard-library renderings the engine calls but no property
depends on: `hashlib.md5(..).hexdigest()`, `f"{x:.1f}"`, `str(datetime)`. -/
structure ExtCtx where
  md5hex : String → String
  fmt1 : ℚ → String
  dtStr : ℤ → String

/-- A dummy instantiation of the opaque context, for concrete evaluations. -/
def dummyCtx : ExtCtx := ⟨fun _ => "", fun _ => "", fun _ => ""⟩

/-- Lookup in a Python dict modelled as an insertion-ordered association
list (keys are unique by construction, so first match = the entry). -/
def alookup {α : Type} : List (String × α) → String → Option α
  | [], _ => none
  | (k', v) :: rest, k => if k' == k then some v else alookup rest k

/-- `defaultdict(int)` increment `d[k] += 1`: an existing key is bumped in
place (insertion order preserved), a new key is appended at the end. -/
def bump : List (String × ℕ) → String → List (String × ℕ)
  | [], k => [(k, 1)]
  | (k', v) :: rest, k =>
    if k' == k then (k', v + 1) :: rest else (k', v) :: bump rest k

/-- `window = window_minutes or self.config["velocity_window_minutes"]`
(Python `or`: `None` and `0` both fall back). -/
def resolveWindow (cfg : CorrelationConfig) (window_minutes : Option ℤ) : ℤ :=
  match window_minutes with
  | none => cfg.velocity_window_minutes
  | some w => if w = 0 then cfg.velocity_window_minutes else w

/-- The entity occurrences one tweet contributes to the velocity count: each
element of `all_entities` lower-cased, then each extracted keyword (already
lower-case) lower-cased again. -/
def velocity_mentions (t : TweetItem) : List String :=
  t.all_entities.map strLower ++ (extract_keywords t.content).map strLower

/-- `CorrelationEngine.calculate_velocity` (dict → insertion-ordered
association list, clock explicit). -/
def calculate_velocity (cfg : CorrelationConfig) (now : ℤ)
    (tweets : List TweetItem) (window_minutes : Option ℤ) :
    List (String × ℚ) :=
  if tweets = [] then []
  else
    let window := resolveWindow cfg window_minutes
    let cutoff := now - window * 60
    let recent := tweets.filter (fun t => cutoff ≤ t.created_at)
    if recent = [] then []
    else
      let counts := (recent.flatMap velocity_mentions).foldl bump []
      counts.map (fun p => (p.1, (p.2 : ℚ) / ((window : ℚ) / 60)))

/-- The spike-emission loop of `detect_velocity_spikes`; pydantic's
`magnitude ≥ 1` bound is checked at each `VelocitySpike(...)` construction. -/
def dvs_loop (cfg : CorrelationConfig) (now : ℤ) (tweets : List TweetItem)
    (baselineV : List (String × ℚ)) :
    List (String × ℚ) → Except PyErr (List VelocitySpike)
  | [] => .ok []
  | (entity, velocity) :: rest =>
    let baseline := (alookup baselineV entity).getD (1/10)
    let magnitude := velocity / max baseline (1/10)
    if cfg.spike_threshold ≤ magnitude then
      let sample_ids :=
        ((tweets.filter (fun t =>
            (t.all_entities.map strLower).contains (strLower entity))).take 3).map
          (·.tweet_id)
      match VelocitySpike.validated
        { entity := entity
          velocity := velocity
          baseline_velocity := baseline
          magnitude := magnitude
          spike_start := now - cfg.velocity_window_minutes * 60
          spike_peak := now
          sample_tweet_ids := sample_ids } with
      | .error err => .error err
      | .ok spike =>
        match dvs_loop cfg now tweets baselineV rest with
        | .error err => .error err
        | .ok others => .ok (spike :: others)
    else dvs_loop cfg now tweets baselineV rest

/-- `CorrelationEngine.detect_velocity_spikes`.  `baseline_tweets = none` or
`some []` are both falsy in `if baseline_tweets:`. -/
def detect_velocity_spikes (cfg : CorrelationConfig) (now : ℤ)
    (tweets : List TweetItem) (baseline_tweets : Option (List TweetItem)) :
    Except PyErr (List VelocitySpike) :=
  if tweets = [] then .ok []
  else
    let current := calculate_velocity cfg now tweets none
    let baseline :=
      match baseline_tweets with
      | some bs =>
        if bs = [] then current.map (fun p => (p.1, p.2 * (3/10)))
        else calculate_velocity cfg now bs (some (cfg.baseline_window_hours * 60))
      | none => current.map (fun p => (p.1, p.2 * (3/10)))
    match dvs_loop cfg now tweets baseline current with
    | .error err => .error err
    | .ok spikes =>
      .ok (pySortBy (fun a b => decide (b.magnitude ≤ a.magnitude)) spikes)

/-- The four entity sets `_extract_tweet_entities` accumulates. -/
structure TweetEntityGroups where
  hashtags : List String
  mentions : List String
  cashtags : List String
  keywords : List String
  deriving DecidableEq, Repr

/-- `CorrelationEngine._extract_tweet_entities`. -/
def extract_tweet_entities (tweets : List TweetItem) : TweetEntityGroups :=
  tweets.foldl (fun acc t =>
    { hashtags := (t.hashtags.map strLower).foldl sAdd acc.hashtags
      mentions := (t.mentions.map strLower).foldl sAdd acc.mentions
      cashtags := (t.cashtags.map strLower).foldl sAdd acc.cashtags
      keywords := (extract_keywords t.content).foldl sAdd acc.keywords })
    ⟨[], [], [], []⟩

/-- The two entity sets `_extract_news_entities` accumulates. -/
structure NewsEntityGroups where
  entities : List String
  keywords : List String
  deriving DecidableEq, Repr

/-- `CorrelationEngine._extract_news_entities`. -/
def extract_news_entities (news_items : List NewsItem) : NewsEntityGroups :=
  news_items.foldl (fun acc item =>
    { entities := (item.entities.map strLower).foldl sAdd acc.entities
      keywords := (extract_keywords item.summary).foldl sAdd
        ((extract_keywords item.title).foldl sAdd acc.keywords) })
    ⟨[], []⟩

/-- Union of `tweet_entities.values()` in dict insertion order. -/
def combined_tweet_entities (te : TweetEntityGroups) : List String :=
  [te.hashtags, te.mentions, te.cashtags, te.keywords].foldl
    (fun s l => l.foldl sAdd s) []

/-- Union of `news_entities.values()` in dict insertion order. -/
def combined_news_entities (ne : NewsEntityGroups) : List String :=
  [ne.entities, ne.keywords].foldl (fun s l => l.foldl sAdd s) []

/-- Per-tweet entity set built inside `_correlate_by_entities`
(lower-cased `all_entities` plus content keywords). -/
def tweet_entity_set (t : TweetItem) : List String :=
  (extract_keywords t.content).foldl sAdd
    ((t.all_entities.map strLower).foldl sAdd [])

/-- Per-news-item entity set built inside `_correlate_by_entities`
(lower-cased `entities` plus *title* keywords only). -/
def news_entity_set (n : NewsItem) : List String :=
  (extract_keywords n.title).foldl sAdd
    ((n.entities.map strLower).foldl sAdd [])

/-- `CorrelationEngine._correlate_by_entities`.  The `min()` over news publish
dates raises `ValueError` when no matching news item carries a date (the
subsequent `if earliest_news:` branch in the source is unreachable, since a
`datetime` is always truthy). -/
def correlate_by_entities (cfg : CorrelationConfig) (ctx : ExtCtx) (now : ℤ)
    (tweets : List TweetItem) (news_items : List NewsItem)
    (tweet_entities : TweetEntityGroups) (news_entities : NewsEntityGroups) :
    Except PyErr (List CorrelatedNarrative) :=
  let allT := combined_tweet_entities tweet_entities
  let allN := combined_news_entities news_entities
  let shared := sInter allT allN
  if shared = [] then .ok []
  else
    let jaccard : ℚ := (shared.length : ℚ) / ((sUnion allT allN).length : ℚ)
    if jaccard < cfg.entity_match_threshold then .ok []
    else
      let matching_tweets := tweets.filter
        (fun t => !((sInter (tweet_entity_set t) shared).isEmpty))
      let matching_news := news_items.filter
        (fun n => !((sInter (news_entity_set n) shared).isEmpty))
      match matching_tweets, matching_news with
      | [], _ => .ok []
      | _ :: _, [] => .ok []
      | t0 :: ts, n0 :: ns =>
        let earliest_tweet := (ts.map (·.created_at)).foldl min t0.created_at
        match ((n0 :: ns).filterMap (·.published_at)) with
        | [] => .error .valueError
        | p :: ps =>
          let earliest_news := ps.foldl min p
          let lead_lag_hours : ℚ := ((earliest_news - earliest_tweet : ℤ) : ℚ) / 3600
          let mtn := (t0 :: ts).length
          let mnn := (n0 :: ns).length
          let confidence := min (0.95 : ℚ)
            (jaccard * 0.5 + ((mtn : ℚ) / 10) * 0.25 + ((mnn : ℚ) / 5) * 0.25)
          let cid := "entity_" ++
            (ctx.md5hex (String.intercalate "," (pySortStr shared))).take 12
          let nShared := shared.length
          match CorrelatedNarrative.validated
            { correlation_id := cid
              title := "Correlation: " ++ String.intercalate ", " (shared.take 3)
              tweet_ids := ((t0 :: ts).take 10).map (·.tweet_id)
              news_article_ids := ((n0 :: ns).take 5).map (·.id)
              keywords := shared.take 10
              hashtags := sInter tweet_entities.hashtags shared
              tweet_spike_time := some earliest_tweet
              news_publish_time := some earliest_news
              lead_lag_hours := some lead_lag_hours
              confidence_score := confidence
              detected_at := now
              evidence_summary := "Found " ++ toString nShared ++
                " shared entities across " ++ toString mtn ++ " tweets and " ++
                toString mnn ++ " news items" } with
          | .error err => .error err
          | .ok corr => .ok [corr]

/-- The news items matching one spike inside `_correlate_by_spikes`:
entity substring of title+summary (or of an entity), a publish date present,
and within the temporal window of the spike peak. -/
def spike_matching_news (cfg : CorrelationConfig) (spike : VelocitySpike)
    (news_items : List NewsItem) : List NewsItem :=
  let entity := strLower spike.entity
  news_items.filter (fun item =>
    (strContainsSub (strLower (item.title ++ " " ++ item.summary)) entity ||
      item.entities.any (fun e => strContainsSub (strLower e) entity)) &&
    (match item.published_at with
     | some p => decide (|p - spike.spike_peak| ≤ cfg.temporal_window_hours * 3600)
     | none => false))

def strUpper (s : String) : String := String.mk (s.toList.map Char.toUpper)

/-- One iteration of the `_correlate_by_spikes` loop body: `.ok none` is the
`continue` on a spike with no matching dated coverage, otherwise the built
(and pydantic-validated) narrative.  Every item of `spike_matching_news` has a
publish date, so matching on the `filterMap` of dates is the
`if not matching_news: continue` test. -/
def correlate_one_spike (cfg : CorrelationConfig) (ctx : ExtCtx) (now : ℤ)
    (news_items : List NewsItem) (spike : VelocitySpike) :
    Except PyErr (Option CorrelatedNarrative) :=
  let matching := spike_matching_news cfg spike news_items
  match (matching.filterMap (·.published_at)) with
  | [] => .ok none
  | p :: ps =>
    let earliest_news := ps.foldl min p
    let lead_lag_hours : ℚ := ((earliest_news - spike.spike_peak : ℤ) : ℚ) / 3600
    let confidence :=
      if 0 < lead_lag_hours then
        min (0.9 : ℚ)
          (0.5 + spike.magnitude * 0.1 + (matching.length : ℚ) * 0.1)
      else
        min (0.7 : ℚ)
          (0.3 + spike.magnitude * 0.1 + (matching.length : ℚ) * 0.1)
    let entity := strLower spike.entity
    let cid := "spike_" ++
      (ctx.md5hex (entity ++ "_" ++ ctx.dtStr spike.spike_peak)).take 12
    match CorrelatedNarrative.validated
      { correlation_id := cid
        title := "Spike detected: " ++ strUpper entity ++ " (" ++
          ctx.fmt1 spike.magnitude ++ "x baseline)"
        tweet_ids := spike.sample_tweet_ids
        news_article_ids := (matching.take 5).map (·.id)
        keywords := [entity]
        hashtags := if entity.startsWith "#" then [entity] else []
        tweet_spike_time := some spike.spike_peak
        news_publish_time := some earliest_news
        lead_lag_hours := some lead_lag_hours
        confidence_score := confidence
        amplification_factor := spike.magnitude
        detected_at := now
        evidence_summary := "Velocity spike of " ++ ctx.fmt1 spike.magnitude ++
          "x " ++ (if 0 < lead_lag_hours then "preceded" else "followed") ++
          " news by " ++ ctx.fmt1 |lead_lag_hours| ++ "h"
        questions :=
          if 3 < spike.magnitude then
            ["What triggered the " ++ entity ++ " spike?",
             "Is this part of a coordinated campaign?"]
          else [] } with
    | .error err => .error err
    | .ok corr => .ok (some corr)

/-- The per-spike loop of `_correlate_by_spikes` (over the already-truncated
top-5 list). -/
def cbs_loop (cfg : CorrelationConfig) (ctx : ExtCtx) (now : ℤ)
    (news_items : List NewsItem) :
    List VelocitySpike → Except PyErr (List CorrelatedNarrative)
  | [] => .ok []
  | spike :: rest =>
    match correlate_one_spike cfg ctx now news_items spike with
    | .error err => .error err
    | .ok none => cbs_loop cfg ctx now news_items rest
    | .ok (some corr) =>
      match cbs_loop cfg ctx now news_items rest with
      | .error err => .error err
      | .ok others => .ok (corr :: others)

/-- `CorrelationEngine._correlate_by_spikes` (`for spike in spikes[:5]`). -/
def correlate_by_spikes (cfg : CorrelationConfig) (ctx : ExtCtx) (now : ℤ)
    (spikes : List VelocitySpike) (news_items : List NewsItem) :
    Except PyErr (List CorrelatedNarrative) :=
  cbs_loop cfg ctx now news_items (spikes.take 5)

/-- First-occurrence deduplication by `correlation_id`. -/
def dedup_loop : List String → List CorrelatedNarrative →
    List CorrelatedNarrative
  | _, [] => []
  | seen, c :: rest =>
    if seen.contains c.correlation_id then dedup_loop seen rest
    else c :: dedup_loop (seen ++ [c.correlation_id]) rest

/-- `CorrelationEngine.detect_correlations` (the unused `category` filter
parameter is dropped). -/
def detect_correlations (cfg : CorrelationConfig) (ctx : ExtCtx) (now : ℤ)
    (tweets : List TweetItem) (news_items : List NewsItem) :
    Except PyErr (List CorrelatedNarrative) :=
  if tweets = [] ∨ news_items = [] then .ok []
  else
    let tweet_entities := extract_tweet_entities tweets
    let news_entities := extract_news_entities news_items
    match detect_velocity_spikes cfg now tweets none with
    | .error err => .error err
    | .ok spikes =>
      match correlate_by_entities cfg ctx now tweets news_items tweet_entities
          news_entities with
      | .error err => .error err
      | .ok entity_correlations =>
        match correlate_by_spikes cfg ctx now spikes news_items with
        | .error err => .error err
        | .ok spike_correlations =>
          let unique := dedup_loop [] (entity_correlations ++ spike_correlations)
          let filtered := unique.filter
            (fun c => decide (cfg.min_confidence ≤ c.confidence_score))
          .ok (pySortBy
            (fun a b => decide (b.confidence_score ≤ a.confidence_score))
            filtered)

/-- `CorrelationEngine.get_leading_indicators`. -/
def get_leading_indicators (correlations : List CorrelatedNarrative) :
    List CorrelatedNarrative :=
  correlations.filter (fun c =>
    match c.lead_lag_hours with
    | some h => decide (0 < h)
    | none => false)

/-- `CorrelationEngine.get_divergent_signals`. -/
def get_divergent_signals (cfg : CorrelationConfig) (now : ℤ)
    (tweets : List TweetItem) (news_items : List NewsItem) :
    Except PyErr (List VelocitySpike) :=
  match detect_velocity_spikes cfg now tweets none with
  | .error err => .error err
  | .ok spikes =>
    let allN := combined_news_entities (extract_news_entities news_items)
    .ok (spikes.filter (fun s => !(allN.contains (strLower s.entity))))

/-! ### `llm_client.py`: unified analysis and its fallback

The network call `self.client.messages.create(...)` is an argument
`response : Except Unit LLMResponse` (`.error` = the call raised);
`json.loads` is an argument `parse` (`.error` = it raised).  Both raises are
caught by the function's `except Exception` and routed to the fallback. -/

structure LLMResponse where
  text : String
  input_tokens : ℤ := 0
  output_tokens : ℤ := 0

/-- A JSON number field that the LLM sometimes returns as a list
(`item_number`, `pm_number`). -/
inductive PyNum where
  | int (z : ℤ)
  | list (l : List ℤ)
  deriving DecidableEq, Repr

/-- `v = d if absent; v = v[0] if a list else d if the list is empty`. -/
def normNum (v : Option PyNum) (d : ℤ) : ℤ :=
  match v with
  | none => d
  | some (.int z) => z
  | some (.list []) => d
  | some (.list (x :: _)) => x

/-- One entry of `result["selected_items"]` in `analyze_unified` (absent JSON
keys are `none`). -/
structure SelUnified where
  item_number : Option PyNum := none
  summary : Option String := none
  urgency : Option String := none
  entities : Option (List String) := none
  confidence : Option ℚ := none
  twitter_boost : Option ℚ := none
  market_probability : Option ℚ := none
  market_question : Option String := none
  deriving DecidableEq, Repr

/-- One entry of `result["twitter_correlations"]`. -/
structure TwCorr where
  rss_item_number : Option ℤ := none
  twitter_entity : Option String := none
  deriving DecidableEq, Repr

/-- One entry of `result["market_correlations"]`. -/
structure MkCorr where
  rss_item_number : Option ℤ := none
  market_number : Option ℤ := none
  deriving DecidableEq, Repr

/-- The parsed JSON object of `analyze_unified` (`result.get(key, default)`
values). -/
structure ParsedUnified where
  selected_items : List SelUnified := []
  analysis_notes : String := ""
  twitter_correlations : List TwCorr := []
  market_correlations : List MkCorr := []
  deriving DecidableEq, Repr

/-- `re.search(r"\{[\s\S]*\}", content)`: the substring from the first
opening brace to the last closing brace after it, if both exist. -/
def extract_json_block (s : String) : Option String :=
  let fromBrace := s.toList.dropWhile (fun c => !(c = Char.ofNat 123 : Bool))
  match fromBrace with
  | [] => none
  | _ =>
    let upto :=
      (fromBrace.reverse.dropWhile (fun c => !(c = Char.ofNat 125 : Bool))).reverse
    if upto = [] then none else some (String.mk upto)

/-- Key comparison for `sorted(items, key=lambda x: x.published_at or
datetime.min, reverse=True)`: a missing date sorts as `datetime.min`,
i.e. below every present date. -/
def optPubLe (a b : Option ℤ) : Bool :=
  match a, b with
  | none, _ => true
  | some _, none => false
  | some x, some y => decide (x ≤ y)

/-- Stable descending sort of news items by publish date (missing date
last). -/
def sort_by_recency_desc (items : List NewsItem) : List NewsItem :=
  pySortBy (fun a b => optPubLe b.published_at a.published_at) items

/-- The `AnalyzedItem` the fallback path builds for one news item. -/
def fallback_item (category : Category) (now : ℤ) (item : NewsItem) :
    AnalyzedItem :=
  { id := item.id
    title := item.title
    summary := item.summary
    url := item.url
    source := item.source
    source_url := item.source_url
    category := category
    urgency := .normal
    relevance_score := 1/2
    published_at := item.published_at
    analyzed_at := now
    entities := item.entities
    source_tags := [SourceType.rss]
    confidence := 1/2 }

/-- `LLMClient._fallback_analysis`: top 5 RSS items by recency, tagged with
neutral urgency/relevance/confidence and a fallback note. -/
def fallback_analysis (category : Category) (rss_items : List NewsItem)
    (sources_used sources_missing : List SourceType) (now : ℤ)
    (duration_ms : ℤ) : UnifiedAnalysisResult :=
  { category := category
    items := ((sort_by_recency_desc rss_items).take 5).map
      (fallback_item category now)
    analyzed_at := now
    sources_used := sources_used
    sources_missing := sources_missing
    rss_count := rss_items.length
    analysis_duration_ms := duration_ms
    agent_notes := some "Fallback analysis - LLM unavailable" }

/-- The item-construction loop of `analyze_unified`; returns the built items
together with the `items_boosted` counter, or the first pydantic validation
error (which the caller's `except` routes to the fallback). -/
def au_build_loop (category : Category) (now : ℤ) (rss_items : List NewsItem)
    (prediction_markets : Option (List PredictionMarket))
    (twitter_correlations : List TwCorr) (market_correlations : List MkCorr) :
    List SelUnified → Except PyErr (List AnalyzedItem × ℤ)
  | [] => .ok ([], 0)
  | sel :: rest =>
    let item_num := normNum sel.item_number 1
    let item_idx := item_num - 1
    if 0 ≤ item_idx ∧ item_idx < (rss_items.length : ℤ) then
      match rss_items[item_idx.toNat]? with
      | none =>
        -- unreachable: the bounds check above guarantees the index is valid
        au_build_loop category now rss_items prediction_markets
          twitter_correlations market_correlations rest
      | some original =>
        let tags0 := [SourceType.rss]
        let (tags1, twitter_boost) :=
          match twitter_correlations.find?
              (fun tc => tc.rss_item_number == some item_num) with
          | some _ =>
            (tags0 ++ [SourceType.twitter],
              match sel.twitter_boost with
              | none => some (1/10)
              | some b => if b = 0 then some (1/10) else some b)
          | none => (tags0, sel.twitter_boost)
        let (tags2, market_prob, market_q) :=
          match market_correlations.find?
              (fun mc => mc.rss_item_number == some item_num) with
          | some mc =>
            let mkt_num := mc.market_number.getD 0
            match prediction_markets with
            | some pms =>
              if 0 < mkt_num ∧ mkt_num ≤ (pms.length : ℤ) then
                match pms[(mkt_num - 1).toNat]? with
                | some mkt =>
                  (tags1 ++ [SourceType.polymarket], mkt.probability,
                    some mkt.question)
                | none =>
                  (tags1 ++ [SourceType.polymarket], sel.market_probability,
                    sel.market_question)
              else
                (tags1 ++ [SourceType.polymarket], sel.market_probability,
                  sel.market_question)
            | none =>
              (tags1 ++ [SourceType.polymarket], sel.market_probability,
                sel.market_question)
          | none => (tags1, sel.market_probability, sel.market_question)
        let boosted : ℤ :=
          match twitter_boost with
          | some b => if 0 < b then 1 else 0
          | none => 0
        let urgency :=
          (Urgency.ofString (strLower (sel.urgency.getD "normal"))).getD .normal
        match AnalyzedItem.validated
            { id := original.id
              title := original.title
              summary := sel.summary.getD original.summary
              url := original.url
              source := original.source
              source_url := original.source_url
              category := category
              urgency := urgency
              relevance_score := original.relevance_score
              published_at := original.published_at
              analyzed_at := now
              entities := sel.entities.getD original.entities
              source_tags := tags2.dedup
              twitter_boost := twitter_boost
              twitter_signals := (twitter_correlations.filter
                  (fun tc => tc.rss_item_number == some item_num)).map
                (fun tc => tc.twitter_entity.getD "")
              market_probability := market_prob
              market_question := market_q
              confidence := sel.confidence.getD (1/2)
              prediction_market := original.prediction_market } with
        | .error err => .error err
        | .ok analyzed =>
          match au_build_loop category now rss_items prediction_markets
              twitter_correlations market_correlations rest with
          | .error err => .error err
          | .ok (items, boostedRest) =>
            .ok (analyzed :: items, boosted + boostedRest)
    else
      au_build_loop category now rss_items prediction_markets
        twitter_correlations market_correlations rest

/-- `LLMClient.analyze_unified`.  `duration_ms` abstracts
`int((time.time() - start_time) * 1000)`. -/
def analyze_unified (model : String) (category : Category)
    (rss_items : List NewsItem) (twitter_signals : Option (List TwitterSignal))
    (prediction_markets : Option (List PredictionMarket)) (now : ℤ)
    (duration_ms : ℤ) (response : Except Unit LLMResponse)
    (parse : String → Except Unit ParsedUnified) : UnifiedAnalysisResult :=
  let sources_used :=
    (if rss_items = [] then [] else [SourceType.rss]) ++
    (if twitter_signals.getD [] = [] then [] else [SourceType.twitter]) ++
    (if prediction_markets.getD [] = [] then [] else [SourceType.polymarket])
  let sources_missing :=
    (if twitter_signals.getD [] = [] then [SourceType.twitter] else []) ++
    (if prediction_markets.getD [] = [] then [SourceType.polymarket] else [])
  if rss_items = [] then
    { category := category
      items := []
      analyzed_at := now
      sources_used := sources_used
      sources_missing := sources_missing
      agent_notes := some "No RSS items available for analysis" }
  else
    match response with
    | .error _ =>
      fallback_analysis category rss_items sources_used sources_missing now
        duration_ms
    | .ok resp =>
      let tokens_used := resp.input_tokens + resp.output_tokens
      match extract_json_block resp.text with
      | none =>
        fallback_analysis category rss_items sources_used sources_missing now
          duration_ms
      | some jtxt =>
        match parse jtxt with
        | .error _ =>
          fallback_analysis category rss_items sources_used sources_missing
            now duration_ms
        | .ok parsed =>
          match au_build_loop category now rss_items prediction_markets
              parsed.twitter_correlations parsed.market_correlations
              parsed.selected_items with
          | .error _ =>
            fallback_analysis category rss_items sources_used sources_missing
              now duration_ms
          | .ok (items, boosted) =>
            { category := category
              items := items
              analyzed_at := now
              sources_used := sources_used
              sources_missing := sources_missing
              rss_count := rss_items.length
              twitter_signals_count := (twitter_signals.getD []).length
              markets_count := (prediction_markets.getD []).length
              items_boosted := boosted
              llm_model := model
              llm_tokens := tokens_used
              analysis_duration_ms := duration_ms
              agent_notes := some parsed.analysis_notes }

/-! ### `reporters/handler.py`: LLM selection → `NewsItem` conversion -/

/-- Python `str.replace(old, new)` on character lists (all occurrences,
left to right; an empty `old` splices `new` around every character). -/
def replaceAll (fuel : ℕ) (s old new : List Char) : List Char :=
  match fuel with
  | 0 => s
  | fuel + 1 =>
    if old = [] then
      match s with
      | [] => new
      | c :: rest => new ++ c :: replaceAll fuel rest old new
    else
      match s with
      | [] => []
      | c :: rest =>
        if old.isPrefixOf (c :: rest) then
          new ++ replaceAll fuel ((c :: rest).drop old.length) old new
        else c :: replaceAll fuel rest old new

def strReplace (s old new : String) : String :=
  String.mk (replaceAll (s.toList.length + 1) s.toList old.toList new.toList)

/-- The `prediction_market` sub-object of one reporters-handler selection. -/
structure RSelPm where
  pm_number : Option PyNum := none
  deriving DecidableEq, Repr

/-- One entry of the reporters handler's `selected` list. -/
structure SelReporter where
  item_number : Option PyNum := none
  summary : Option String := none
  urgency : Option String := none
  relevance_score : Option ℚ := none
  entities : Option (List String) := none
  tags : Option (List String) := none
  prediction_market : Option RSelPm := none
  deriving DecidableEq, Repr

/-- The `selected → NewsItem` conversion loop of `reporters/handler.py`
(lines 322–365).  An out-of-range `item_number` silently skips the record; an
unknown urgency string (`Urgency(...)` has no guard here) raises `ValueError`
and a pydantic bound violation raises a validation error — either exception
aborts the whole loop (the handler's outer `except` then returns a 500 for
the run). -/
def reporters_selected_loop (category : Category)
    (new_items : List RawFeedItem) (prediction_markets : List RawFeedItem) :
    List SelReporter → Except PyErr (List NewsItem)
  | [] => .ok []
  | sel :: rest =>
    let item_num := normNum sel.item_number 1
    let item_idx := item_num - 1
    if 0 ≤ item_idx ∧ item_idx < (new_items.length : ℤ) then
      match new_items[item_idx.toNat]? with
      | none =>
        -- unreachable: the bounds check above guarantees the index is valid
        reporters_selected_loop category new_items prediction_markets rest
      | some raw_item =>
        let pm_data : Option PredictionMarket :=
          match sel.prediction_market with
          | some pm =>
            if prediction_markets = [] then none
            else
              let pm_num := normNum pm.pm_number 0
              let pm_idx := pm_num - 1
              if 0 ≤ pm_idx ∧ pm_idx < (prediction_markets.length : ℤ) then
                match prediction_markets[pm_idx.toNat]? with
                | some pm_item => some
                  { question :=
                      strReplace (strReplace pm_item.title "📊 " "") "🔮 " ""
                    probability := pm_item.raw_parsed_probability
                    source := pm_item.raw_source.getD pm_item.source
                    volume := pm_item.raw_parsed_volume
                    url := some pm_item.link }
                | none => none
              else none
          | none => none
        match Urgency.ofString (sel.urgency.getD "normal") with
        | none => .error .valueError
        | some urg =>
          match NewsItem.validated
            { id := raw_item.id
              title := raw_item.title
              summary := sel.summary.getD
                (String.mk (raw_item.description.toList.take 200))
              url := raw_item.link
              source := raw_item.source
              source_url := raw_item.source_url
              category := category
              urgency := urg
              relevance_score := sel.relevance_score.getD (1/2)
              published_at := raw_item.published
              entities := sel.entities.getD []
              tags := sel.tags.getD []
              prediction_market := pm_data } with
          | .error err => .error err
          | .ok news_item =>
            match reporters_selected_loop category new_items
                prediction_markets rest with
            | .error err => .error err
            | .ok others => .ok (news_item :: others)
    else
      reporters_selected_loop category new_items prediction_markets rest

/-! ## Helper lemmas -/

theorem mem_pyInsertSorted {α : Type} (le : α → α → Bool) (x a : α) :
    ∀ l : List α, a ∈ pyInsertSorted le x l ↔ a = x ∨ a ∈ l
  | [] => by simp [pyInsertSorted]
  | y :: ys => by
    simp only [pyInsertSorted]
    split
    · simp
    · simp only [List.mem_cons, mem_pyInsertSorted le x a ys]
      tauto

theorem mem_pySortBy {α : Type} (le : α → α → Bool) (a : α) :
    ∀ l : List α, a ∈ pySortBy le l ↔ a ∈ l
  | [] => Iff.rfl
  | x :: xs => by
    simp only [pySortBy, mem_pyInsertSorted, List.mem_cons, mem_pySortBy le a xs]

theorem alookup_bump :
    ∀ (d : List (String × ℕ)) (x e : String),
      alookup (bump d x) e =
        if e = x then some ((alookup d x).getD 0 + 1) else alookup d e
  | [], x, e => by
    by_cases he : e = x
    · subst he
      simp [bump, alookup]
    · have hxe : (x == e) = false := beq_eq_false_iff_ne.2 (Ne.symm he)
      simp [bump, alookup, hxe, he]
  | (k, v) :: rest, x, e => by
    simp only [bump]
    by_cases hk : k = x
    · have hkx : (k == x) = true := beq_iff_eq.2 hk
      rw [if_pos hkx]
      by_cases he : k = e
      · have hke : (k == e) = true := beq_iff_eq.2 he
        have hex : e = x := by rw [← he, hk]
        simp [alookup, hke, hkx, hex]
      · have hke : (k == e) = false := beq_eq_false_iff_ne.2 he
        have hex : ¬ e = x := fun h => he (by rw [hk, ← h])
        simp [alookup, hke, hex]
    · have hkx : (k == x) = false := beq_eq_false_iff_ne.2 hk
      rw [if_neg (by simp [hkx])]
      by_cases he : k = e
      · have hke : (k == e) = true := beq_iff_eq.2 he
        have hex : ¬ e = x := fun h => hk (by rw [he, h])
        simp [alookup, hke, hkx, hex]
      · have hke : (k == e) = false := beq_eq_false_iff_ne.2 he
        simp [alookup, hke, hkx, alookup_bump rest x e]

theorem alookup_foldl_bump (e : String) :
    ∀ (stream : List String) (d : List (String × ℕ)),
      alookup (stream.foldl bump d) e =
        match alookup d e with
        | some n => some (n + stream.count e)
        | none =>
          if stream.count e = 0 then none else some (stream.count e)
  | [], d => by cases h : alookup d e <;> simp [h]
  | x :: rest, d => by
    rw [List.foldl_cons, alookup_foldl_bump e rest (bump d x), alookup_bump]
    by_cases he : e = x
    · subst he
      rw [if_pos rfl]
      have hc : (e :: rest).count e = rest.count e + 1 := by
        simp [List.count_cons]
      cases h : alookup d e <;> simp [h, hc] <;> omega
    · rw [if_neg he]
      have hc : (x :: rest).count e = rest.count e := by
        have hxe : (x == e) = false := beq_eq_false_iff_ne.2 (Ne.symm he)
        simp [List.count_cons, hxe]
      cases h : alookup d e <;> simp [h, hc]

theorem alookup_foldl_bump_nil (e : String) (stream : List String) :
    alookup (stream.foldl bump []) e =
      if stream.count e = 0 then none else some (stream.count e) := by
  rw [alookup_foldl_bump]
  rfl

theorem alookup_map_val (g : ℕ → ℚ) (e : String) :
    ∀ d : List (String × ℕ),
      alookup (d.map (fun p => (p.1, g p.2))) e = (alookup d e).map g
  | [] => rfl
  | (k, v) :: rest => by
    by_cases he : k = e
    · simp [alookup, he]
    · have he' : (k == e) = false := beq_eq_false_iff_ne.2 he
      simp [alookup, he', alookup_map_val g e rest]

theorem VelocitySpike.validated_ok {v s : VelocitySpike}
    (h : VelocitySpike.validated v = .ok s) : s = v ∧ 1 ≤ v.magnitude := by
  unfold VelocitySpike.validated at h
  split at h
  · rename_i hm
    cases h
    exact ⟨rfl, hm⟩
  · cases h

theorem dvs_loop_spike_props (cfg : CorrelationConfig) (now : ℤ)
    (tweets : List TweetItem) (baselineV : List (String × ℚ)) :
    ∀ (cur : List (String × ℚ)) (l : List VelocitySpike),
      dvs_loop cfg now tweets baselineV cur = .ok l →
      ∀ s ∈ l,
        s.magnitude = s.velocity / max s.baseline_velocity (1/10) ∧
        1 ≤ s.magnitude ∧ cfg.spike_threshold ≤ s.magnitude := by
  intro cur
  induction cur with
  | nil =>
    intro l h s hs
    simp only [dvs_loop] at h
    cases h
    cases hs
  | cons p rest ih =>
    obtain ⟨e, v⟩ := p
    intro l h s hs
    simp only [dvs_loop] at h
    split at h
    · rename_i hth
      split at h
      · cases h
      · rename_i spike hval
        split at h
        · cases h
        · rename_i others hrest
          cases h
          obtain ⟨hsv, hm⟩ := VelocitySpike.validated_ok hval
          rcases List.mem_cons.1 hs with hsp | hso
          · subst hsp
            subst hsv
            exact ⟨rfl, hm, hth⟩
          · exact ih others hrest s hso
    · exact ih l h s hs

theorem dvs_sort_props {cfg : CorrelationConfig} {now : ℤ}
    {tweets : List TweetItem} {B : List (String × ℚ)}
    {l : List VelocitySpike}
    (h : (match dvs_loop cfg now tweets B (calculate_velocity cfg now tweets none) with
          | Except.error err => (Except.error err : Except PyErr (List VelocitySpike))
          | Except.ok spikes =>
            Except.ok (pySortBy (fun a b => decide (b.magnitude ≤ a.magnitude)) spikes))
          = Except.ok l) :
    ∀ s ∈ l,
      s.magnitude = s.velocity / max s.baseline_velocity (1/10) ∧
      1 ≤ s.magnitude ∧ cfg.spike_threshold ≤ s.magnitude := by
  intro s hs
  split at h
  · cases h
  · rename_i spikes hloop
    cases h
    exact dvs_loop_spike_props cfg now tweets _ _ spikes hloop s
      ((mem_pySortBy _ s spikes).1 hs)

/-! ## Sample inputs used by witnesses and counterexamples -/

/-- A tweet carrying the entity `foo` once (as a hashtag), empty content. -/
def sampleTweetFoo : TweetItem :=
  { tweet_id := "1", author_handle := "a", author_id := "a", content := "",
    created_at := 0, hashtags := ["foo"] }

/-- A tweet mentioning `foo` twice (hashtag `Foo` and mention `FOO`). -/
def sampleTweetDouble : TweetItem :=
  { tweet_id := "1", author_handle := "a", author_id := "a", content := "",
    created_at := 0, hashtags := ["Foo"], mentions := ["FOO"] }

/-- A news item tagged with entity `foo` but carrying no publish date. -/
def sampleNewsNoDate : NewsItem :=
  { id := "n1", title := "", summary := "", url := "u", source := "s",
    source_url := "su", category := .ai_ml, relevance_score := 1/2,
    entities := ["foo"] }

/-- A news item tagged with entity `foo`, published one hour after epoch. -/
def sampleNewsFoo : NewsItem :=
  { id := "n1", title := "", summary := "", url := "u", source := "s",
    source_url := "su", category := .ai_ml, relevance_score := 1/2,
    published_at := some 3600, entities := ["foo"] }

/-! ## Claims -/

/-- Claim C7 (confirmed): every `VelocitySpike` returned by
`detect_velocity_spikes` — for any configuration and whether or not baseline
tweets are supplied — has `magnitude = velocity / max(baseline, 0.1)`,
`magnitude ≥ 1.0` (the pydantic `ge=1.0` bound, enforced at construction),
and no spike is produced with magnitude below `spike_threshold`. -/
theorem C7_spike_floor :
    ∀ (cfg : CorrelationConfig) (now : ℤ) (tweets : List TweetItem)
      (baseline_tweets : Option (List TweetItem)) (l : List VelocitySpike),
      detect_velocity_spikes cfg now tweets baseline_tweets = .ok l →
      ∀ s ∈ l,
        s.magnitude = s.velocity / max s.baseline_velocity (1/10) ∧
        1 ≤ s.magnitude ∧ cfg.spike_threshold ≤ s.magnitude := by
  intro cfg now tweets bt l h s hs
  unfold detect_velocity_spikes at h
  split at h
  · cases h
    cases hs
  · split at h <;> exact dvs_sort_props h s hs

/-- Witness for C7 at a concrete run: one tweet with hashtag `foo` produces
the spike with magnitude `10/3`, which the theorem bounds below by `1` and by
the default threshold `2`. -/
theorem C7_spike_floor_witness :
    (1 : ℚ) ≤ 10/3 ∧ CORRELATION_CONFIG.spike_threshold ≤ 10/3 := by
  have h := C7_spike_floor CORRELATION_CONFIG 0 [sampleTweetFoo] none
    [{ entity := "foo", velocity := 1, baseline_velocity := 3/10,
       magnitude := 10/3, spike_start := -3600, spike_peak := 0,
       sample_tweet_ids := ["1"] }]
    (by decide!)
    { entity := "foo", velocity := 1, baseline_velocity := 3/10,
      magnitude := 10/3, spike_start := -3600, spike_peak := 0,
      sample_tweet_ids := ["1"] }
    (by decide!)
  exact ⟨h.2.1, h.2.2⟩

/-- Claim C3 (code bug): `detect_correlations` is claimed total over
well-formed input, but when the entity-overlap branch fires and no matching
news item carries a publish date, `min()` over an empty generator raises
`ValueError` (the source's `if earliest_news:` guard is unreachable since
datetimes are always truthy).  This evaluates the embedded code at that
failing input. -/
theorem C3_totality_failing_eval :
    detect_correlations CORRELATION_CONFIG dummyCtx 0 [sampleTweetFoo]
      [sampleNewsNoDate] = .error .valueError := by decide!

/-- Claim C6 (amended): `calculate_velocity` maps each entity to the number
of *mentions* of that entity (counted with multiplicity across a tweet's
lower-cased hashtags+mentions+cashtags plus its extracted keywords) by tweets
within the window, divided by the window length in hours — not the number of
distinct signals mentioning it. -/
theorem C6_velocity_formula :
    ∀ (cfg : CorrelationConfig) (now : ℤ) (tweets : List TweetItem)
      (window_minutes : Option ℤ) (e : String),
      alookup (calculate_velocity cfg now tweets window_minutes) e =
        (let window := resolveWindow cfg window_minutes
         let recent := tweets.filter (fun t => now - window * 60 ≤ t.created_at)
         let c := (recent.flatMap velocity_mentions).count e
         if c = 0 then none
         else some ((c : ℚ) / ((window : ℚ) / 60))) := by
  intro cfg now tweets wm e
  simp only [calculate_velocity]
  split
  · rename_i hnil
    simp [hnil, alookup]
  · split
    · rename_i hrec
      simp only [hrec, List.flatMap_nil, List.count_nil, if_pos rfl]
      rfl
    · rw [alookup_map_val
        (fun n => (n : ℚ) / ((resolveWindow cfg wm : ℚ) / 60)) e,
        alookup_foldl_bump_nil]
      split <;> rfl

/-- Modelled from the claim's words: the number of signals within the window
whose (case-folded) entities or extracted keywords mention the entity. -/
def spec_signal_count (cfg : CorrelationConfig) (now : ℤ)
    (tweets : List TweetItem) (window_minutes : Option ℤ) (e : String) : ℕ :=
  (tweets.filter
    (fun t => now - resolveWindow cfg window_minutes * 60 ≤ t.created_at)).countP
    (fun t => (velocity_mentions t).contains e)

/-- Counterexample to C6 as stated: a single tweet carrying `foo` both as a
hashtag and as a mention yields velocity `2` for `foo` over the default
60-minute window, while only `1` signal mentions `foo`, so the claimed
numerator (signals mentioning the entity) is wrong. -/
theorem C6_counterexample :
    alookup (calculate_velocity CORRELATION_CONFIG 0 [sampleTweetDouble] none)
        "foo" = some 2 ∧
    spec_signal_count CORRELATION_CONFIG 0 [sampleTweetDouble] none "foo" = 1 ∧
    (2 : ℚ) ≠ (1 : ℚ) / ((60 : ℚ) / 60) := by decide!

/-! ## The pre-LLM filter pipeline: lemmas and claims C5, C8, C10 -/

theorem length_sInter {a b : List String} (ha : a.Nodup) :
    (sInter a b).length = (a.toFinset ∩ b.toFinset).card := by
  classical
  have hnd : (sInter a b).Nodup := ha.filter _
  rw [← List.toFinset_card_of_nodup hnd]
  congr 1
  ext x
  simp [sInter, List.mem_toFinset, List.mem_filter, Finset.mem_inter]

theorem length_sUnion {a b : List String} (ha : a.Nodup) (hb : b.Nodup) :
    (sUnion a b).length = (a.toFinset ∪ b.toFinset).card := by
  classical
  have hnodup : (sUnion a b).Nodup := by
    refine List.Nodup.append ha (hb.filter _) ?_
    intro x hxa hxb
    obtain ⟨-, hpred⟩ := List.mem_filter.1 hxb
    simp at hpred
    exact hpred hxa
  rw [← List.toFinset_card_of_nodup hnodup]
  congr 1
  ext x
  simp only [List.mem_toFinset, sUnion, List.mem_append, List.mem_filter,
    Bool.not_eq_true', decide_eq_false_iff_not, Finset.mem_union]
  tauto

theorem jaccard_similarity_comm (str1 str2 : String) :
    jaccard_similarity str1 str2 = jaccard_similarity str2 str1 := by
  simp only [jaccard_similarity]
  have h1 : (sOfList (findWordRuns ((strLower str1).length + 1)
      (strLower str1).toList)).Nodup := List.nodup_dedup _
  have h2 : (sOfList (findWordRuns ((strLower str2).length + 1)
      (strLower str2).toList)).Nodup := List.nodup_dedup _
  by_cases hc : sOfList (findWordRuns ((strLower str1).length + 1)
      (strLower str1).toList) = [] ∨
      sOfList (findWordRuns ((strLower str2).length + 1)
        (strLower str2).toList) = []
  · rw [if_pos hc, if_pos (Or.symm hc)]
  · rw [if_neg hc, if_neg (fun h => hc (Or.symm h))]
    rw [length_sInter h1, length_sInter h2, length_sUnion h1 h2,
      length_sUnion h2 h1, Finset.inter_comm, Finset.union_comm]

theorem fst_loop_append (th : ℚ) :
    ∀ (l kept : List RawFeedItem),
      ∃ s, fst_loop th kept l = kept ++ s ∧ s.Sublist l
  | [], kept => ⟨[], by simp [fst_loop]⟩
  | item :: rest, kept => by
    simp only [fst_loop]
    split
    · obtain ⟨s, hs, hsub⟩ := fst_loop_append th rest kept
      exact ⟨s, hs, hsub.cons item⟩
    · obtain ⟨s, hs, hsub⟩ := fst_loop_append th rest (kept ++ [item])
      refine ⟨item :: s, ?_, hsub.cons₂ item⟩
      rw [hs, List.append_assoc]
      rfl

theorem filter_similar_titles_sublist (items : List RawFeedItem) (th : ℚ) :
    (filter_similar_titles items th).Sublist items := by
  unfold filter_similar_titles
  split
  · exact List.Sublist.refl _
  · obtain ⟨s, hs, hsub⟩ := fst_loop_append th items []
    rw [hs]
    simpa using hsub

theorem fst_loop_pairwise (th : ℚ) (l : List RawFeedItem) :
    ∀ kept : List RawFeedItem,
      kept.Pairwise (fun a b => jaccard_similarity a.title b.title < th) →
      (fst_loop th kept l).Pairwise
        (fun a b => jaccard_similarity a.title b.title < th) := by
  induction l with
  | nil => intro kept hk; exact hk
  | cons item rest ih =>
    intro kept hk
    simp only [fst_loop]
    split
    · exact ih kept hk
    · rename_i hnot
      apply ih
      rw [List.pairwise_append]
      refine ⟨hk, List.pairwise_singleton _ _, ?_⟩
      intro a ha b hb
      rw [List.mem_singleton] at hb
      have hle : ¬ th ≤ jaccard_similarity b.title a.title := by
        intro hle
        refine hnot (List.any_eq_true.2 ⟨a, ha, decide_eq_true ?_⟩)
        rw [← hb]
        exact hle
      rw [jaccard_similarity_comm]
      exact not_le.1 hle

theorem filter_similar_titles_pairwise (items : List RawFeedItem) (th : ℚ) :
    (filter_similar_titles items th).Pairwise
      (fun a b => jaccard_similarity a.title b.title < th) := by
  unfold filter_similar_titles
  split
  · rename_i hnil
    rw [hnil]
    exact List.Pairwise.nil
  · exact fst_loop_pairwise th items [] List.Pairwise.nil

theorem lps_loop_sublist (cap : ℤ) :
    ∀ (l : List RawFeedItem) (counts : String → ℕ),
      (lps_loop cap counts l).Sublist l
  | [], _ => by simp [lps_loop]
  | item :: rest, counts => by
    simp only [lps_loop]
    split
    · exact (lps_loop_sublist cap rest _).cons₂ item
    · exact (lps_loop_sublist cap rest counts).cons item

theorem ite_true_one : (if (true = true) then (1 : ℕ) else 0) = 1 := rfl

theorem ite_false_zero : (if (false = true) then (1 : ℕ) else 0) = 0 := rfl

theorem lps_loop_count (cap : ℤ) (s : String) :
    ∀ (l : List RawFeedItem) (counts : String → ℕ),
      (counts s : ℤ) ≤ cap →
      ((lps_loop cap counts l).countP (fun i => i.source == s) : ℤ) +
        (counts s : ℤ) ≤ cap := by
  intro l
  induction l with
  | nil => intro counts hb; simpa [lps_loop] using hb
  | cons item rest ih =>
    intro counts hb
    simp only [lps_loop]
    split
    · rename_i hlt
      rw [List.countP_cons]
      by_cases hsrc : item.source = s
      · have hpred : (item.source == s) = true := beq_iff_eq.2 hsrc
        have hupd : (((if s = item.source then counts item.source + 1
            else counts s : ℕ)) : ℤ) ≤ cap := by
          rw [if_pos hsrc.symm]
          push_cast
          omega
        have ihh := ih
          (fun s' => if s' = item.source then counts item.source + 1
            else counts s') hupd
        have hcs : (if s = item.source then counts item.source + 1
            else counts s) = counts s + 1 := by
          rw [if_pos hsrc.symm, hsrc]
        have ihh' : ((lps_loop cap
            (fun s' => if s' = item.source then counts item.source + 1
              else counts s') rest).countP (fun i => i.source == s) : ℤ) +
            ((counts s + 1 : ℕ) : ℤ) ≤ cap := by
          rw [← hcs]
          exact ihh
        rw [hpred, ite_true_one]
        push_cast at ihh' ⊢
        omega
      · have hpred : (item.source == s) = false :=
          beq_eq_false_iff_ne.2 (fun h => hsrc h)
        have hupd : (((if s = item.source then counts item.source + 1
            else counts s : ℕ)) : ℤ) ≤ cap := by
          rw [if_neg (fun h => hsrc h.symm)]
          exact hb
        have ihh := ih
          (fun s' => if s' = item.source then counts item.source + 1
            else counts s') hupd
        have ihh' : ((lps_loop cap
            (fun s' => if s' = item.source then counts item.source + 1
              else counts s') rest).countP (fun i => i.source == s) : ℤ) +
            ((counts s : ℕ) : ℤ) ≤ cap := by
          rw [← show (if s = item.source then counts item.source + 1
              else counts s) = counts s from if_neg (fun h => hsrc h.symm)]
          exact ihh
        rw [hpred, ite_false_zero]
        push_cast at ihh' ⊢
        omega
    · exact ih counts hb

theorem lps_loop_empty_of_nonpos {cap : ℤ} (hc : cap ≤ 0) :
    ∀ (l : List RawFeedItem) (counts : String → ℕ),
      lps_loop cap counts l = []
  | [], _ => rfl
  | item :: rest, counts => by
    simp only [lps_loop]
    rw [if_neg (by omega)]
    exact lps_loop_empty_of_nonpos hc rest counts

theorem limit_per_source_count (items : List RawFeedItem) (cap : ℤ)
    (s : String) :
    ((limit_per_source items cap).countP (fun i => i.source == s) : ℤ) ≤
      max cap 0 := by
  by_cases hc : (0 : ℤ) ≤ cap
  · have h := lps_loop_count cap s items (fun _ => 0) (by simpa)
    have hm : max cap 0 = cap := max_eq_left hc
    unfold limit_per_source
    omega
  · unfold limit_per_source
    rw [lps_loop_empty_of_nonpos (by omega)]
    simp

/-- Claim C5 (confirmed): for every input list and parameter choice,
`apply_pre_llm_filters` returns an order-preserving subsequence of its input
(hence no longer than it); every kept item is undated or strictly within the
clamped age window; no two kept items have title-Jaccard at or above the
similarity threshold; and no source contributes more than `max_per_source`
items (`max cap 0` accounts for non-positive caps, where nothing survives). -/
theorem C5_filter_invariants :
    ∀ (now : ℤ) (items : List RawFeedItem) (max_age_hours : ℤ)
      (similarity_threshold : ℚ) (max_per_source : ℤ),
      let out := apply_pre_llm_filters now items max_age_hours
        similarity_threshold max_per_source
      out.Sublist items ∧
      out.length ≤ items.length ∧
      (∀ x ∈ out, x.published = none ∨
        ∃ p, x.published = some p ∧
          now - max 1 (min max_age_hours 720) * 3600 < p) ∧
      out.Pairwise
        (fun a b => jaccard_similarity a.title b.title < similarity_threshold) ∧
      (∀ s, ((out.countP (fun i => i.source == s)) : ℤ) ≤ max max_per_source 0) := by
  intro now items mah th cap
  have hage : (filter_by_age now items mah).Sublist items := by
    simp only [filter_by_age]
    exact List.filter_sublist _
  have hfst : (filter_similar_titles (filter_by_age now items mah) th).Sublist
      (filter_by_age now items mah) := filter_similar_titles_sublist _ _
  have hlps : (apply_pre_llm_filters now items mah th cap).Sublist
      (filter_similar_titles (filter_by_age now items mah) th) :=
    lps_loop_sublist cap _ _
  have hsub : (apply_pre_llm_filters now items mah th cap).Sublist items :=
    (hlps.trans hfst).trans hage
  refine ⟨hsub, hsub.length_le, ?_, ?_, ?_⟩
  · intro x hx
    have hx1 : x ∈ filter_by_age now items mah :=
      hfst.subset (hlps.subset hx)
    simp only [filter_by_age] at hx1
    obtain ⟨-, hpred⟩ := List.mem_filter.1 hx1
    rcases hpub : x.published with _ | p
    · exact Or.inl rfl
    · right
      refine ⟨p, rfl, ?_⟩
      rw [hpub] at hpred
      simpa using hpred
  · exact List.Pairwise.sublist hlps (filter_similar_titles_pairwise _ _)
  · intro s
    exact limit_per_source_count _ cap s

/-- Sample feed items for pipeline witnesses. -/
def sampleItemA : RawFeedItem :=
  { id := "1", title := "a b c", link := "l1", description := "d1",
    source := "A", source_url := "u", published := none }

def sampleItemB : RawFeedItem :=
  { id := "2", title := "a b d", link := "l2", description := "d2",
    source := "A", source_url := "u", published := some (-100) }

/-- Witness for C5 on a concrete run (two items, one undated and one recent,
same source): the output is a subsequence, the dated item is inside the
window, and the source cap holds. -/
theorem C5_filter_invariants_witness :
    (apply_pre_llm_filters 0 [sampleItemA, sampleItemB] 24 (7/10) 5).Sublist
      [sampleItemA, sampleItemB] ∧
    ((0 : ℤ) - max 1 (min 24 720) * 3600 < -100) ∧
    (((apply_pre_llm_filters 0 [sampleItemA, sampleItemB] 24 (7/10) 5).countP
        (fun i => i.source == "A")) : ℤ) ≤ max 5 0 := by
  have h := C5_filter_invariants 0 [sampleItemA, sampleItemB] 24 (7/10) 5
  refine ⟨h.1, ?_, h.2.2.2.2 "A"⟩
  rcases h.2.2.1 sampleItemB (by decide!) with hnone | ⟨p, hp, hlt⟩
  · exact absurd hnone (by decide!)
  · have hp' : some (-100 : ℤ) = some p := hp
    obtain rfl : (-100 : ℤ) = p := Option.some_inj.1 hp'
    exact hlt

theorem fst_loop_cons_skip {th : ℚ} {kept : List RawFeedItem}
    {item : RawFeedItem} {rest : List RawFeedItem}
    (h : kept.any
      (fun k => decide (th ≤ jaccard_similarity item.title k.title)) = true) :
    fst_loop th kept (item :: rest) = fst_loop th kept rest := by
  simp only [fst_loop]
  rw [if_pos h]

theorem fst_loop_cons_keep {th : ℚ} {kept : List RawFeedItem}
    {item : RawFeedItem} {rest : List RawFeedItem}
    (h : kept.any
      (fun k => decide (th ≤ jaccard_similarity item.title k.title)) = false) :
    fst_loop th kept (item :: rest) = fst_loop th (kept ++ [item]) rest := by
  simp only [fst_loop]
  rw [if_neg (by simp [h])]

/-- Claim C8 (confirmed): the near-duplicate title filter is greedy with
first-occurrence-wins; for any titles A, B, C in that order with
`sim(A,B) ≥ threshold`, `sim(B,C) ≥ threshold` and `sim(A,C) < threshold`,
exactly A and C survive. -/
theorem C8_greedy_triple :
    ∀ (th : ℚ) (A B C : RawFeedItem),
      th ≤ jaccard_similarity A.title B.title →
      th ≤ jaccard_similarity B.title C.title →
      jaccard_similarity A.title C.title < th →
      filter_similar_titles [A, B, C] th = [A, C] := by
  intro th A B C hAB hBC hAC
  unfold filter_similar_titles
  rw [if_neg (by simp)]
  have h1 : ([] : List RawFeedItem).any
      (fun k => decide (th ≤ jaccard_similarity A.title k.title)) = false := rfl
  have h2 : ([] ++ [A]).any
      (fun k => decide (th ≤ jaccard_similarity B.title k.title)) = true := by
    simp only [List.nil_append, List.any_cons, List.any_nil, Bool.or_false]
    exact decide_eq_true (jaccard_similarity_comm B.title A.title ▸ hAB)
  have h3 : ([] ++ [A]).any
      (fun k => decide (th ≤ jaccard_similarity C.title k.title)) = false := by
    simp only [List.nil_append, List.any_cons, List.any_nil, Bool.or_false]
    exact decide_eq_false
      (not_le.2 (jaccard_similarity_comm C.title A.title ▸ hAC))
  rw [fst_loop_cons_keep h1, fst_loop_cons_skip h2, fst_loop_cons_keep h3]
  rfl

def sampleTitleA : RawFeedItem :=
  { id := "1", title := "a b c", link := "", description := "", source := "A",
    source_url := "", published := none }

def sampleTitleB : RawFeedItem :=
  { id := "2", title := "a b c d", link := "", description := "", source := "B",
    source_url := "", published := none }

def sampleTitleC : RawFeedItem :=
  { id := "3", title := "b c d", link := "", description := "", source := "C",
    source_url := "", published := none }

/-- Witness for C8: with titles `a b c`, `a b c d`, `b c d` and threshold 0.7
(`sim(A,B) = sim(B,C) = 3/4 ≥ 0.7`, `sim(A,C) = 1/2 < 0.7`), exactly A and C
survive. -/
theorem C8_greedy_triple_witness :
    filter_similar_titles [sampleTitleA, sampleTitleB, sampleTitleC] (7/10) =
      [sampleTitleA, sampleTitleC] :=
  C8_greedy_triple (7/10) sampleTitleA sampleTitleB sampleTitleC
    (by decide!) (by decide!) (by decide!)

theorem fst_loop_all_kept (th : ℚ) :
    ∀ (l kept : List RawFeedItem),
      l.Pairwise (fun a b => jaccard_similarity a.title b.title < th) →
      (∀ i ∈ l, ∀ k ∈ kept, jaccard_similarity i.title k.title < th) →
      fst_loop th kept l = kept ++ l
  | [], kept, _, _ => by simp [fst_loop]
  | item :: rest, kept, hp, hcross => by
    simp only [fst_loop]
    rw [if_neg ?hcond]
    case hcond =>
      intro hany
      obtain ⟨k, hk, hdec⟩ := List.any_eq_true.1 hany
      exact absurd (of_decide_eq_true hdec)
        (not_le.2 (hcross item (List.mem_cons_self _ _) k hk))
    have hrest := fst_loop_all_kept th rest (kept ++ [item])
      (List.pairwise_cons.1 hp).2 ?cross
    case cross =>
      intro i hi k hk
      rcases List.mem_append.1 hk with hk1 | hk2
      · exact hcross i (List.mem_cons_of_mem item hi) k hk1
      · rw [List.mem_singleton] at hk2
        subst hk2
        rw [jaccard_similarity_comm]
        exact (List.pairwise_cons.1 hp).1 i hi
    rw [hrest, List.append_assoc]
    rfl

theorem lps_loop_all (cap : ℤ) :
    ∀ (l : List RawFeedItem) (counts : String → ℕ),
      (∀ s, (counts s : ℤ) + l.countP (fun i => i.source == s) ≤ cap) →
      lps_loop cap counts l = l := by
  intro l
  induction l with
  | nil => intro counts _; rfl
  | cons item rest ih =>
    intro counts hbound
    simp only [lps_loop]
    have hself := hbound item.source
    rw [List.countP_cons, beq_self_eq_true, ite_true_one] at hself
    have hlt : (counts item.source : ℤ) < cap := by
      push_cast at hself
      omega
    rw [if_pos hlt]
    congr 1
    apply ih
    intro s
    by_cases hs : s = item.source
    · rw [if_pos hs]
      have hb2 := hbound s
      rw [List.countP_cons] at hb2
      have hpred : (item.source == s) = true := beq_iff_eq.2 hs.symm
      rw [hpred, ite_true_one, hs] at hb2
      rw [hs]
      push_cast at hb2 ⊢
      omega
    · rw [if_neg hs]
      have hb2 := hbound s
      rw [List.countP_cons] at hb2
      have hpred : (item.source == s) = false :=
        beq_eq_false_iff_ne.2 (fun h => hs h.symm)
      rw [hpred, ite_false_zero] at hb2
      push_cast at hb2 ⊢
      omega

/-- Claim C10 (confirmed): both `filter_similar_titles` and
`limit_per_source` are idempotent — re-running either on its own output with
the same parameter returns that output unchanged. -/
theorem C10_filters_idempotent :
    ∀ (items : List RawFeedItem) (similarity_threshold : ℚ)
      (max_per_source : ℤ),
      filter_similar_titles (filter_similar_titles items similarity_threshold)
        similarity_threshold =
        filter_similar_titles items similarity_threshold ∧
      limit_per_source (limit_per_source items max_per_source) max_per_source =
        limit_per_source items max_per_source := by
  intro items th cap
  constructor
  · have hp := filter_similar_titles_pairwise items th
    conv_lhs => rw [filter_similar_titles]
    split
    · rfl
    · have h := fst_loop_all_kept th (filter_similar_titles items th) [] hp
        (by intro i _ k hk; cases hk)
      simpa using h
  · by_cases hc : (0 : ℤ) ≤ cap
    · unfold limit_per_source
      apply lps_loop_all cap
      intro s
      have h := limit_per_source_count items cap s
      rw [max_eq_left hc] at h
      simpa using h
    · unfold limit_per_source
      rw [lps_loop_empty_of_nonpos (by omega), lps_loop_empty_of_nonpos (by omega)]

/-! ## Entity-overlap correlation: claim C1 -/

theorem CorrelatedNarrative.validated_of_bounds {v : CorrelatedNarrative}
    (h : 0 ≤ v.confidence_score ∧ v.confidence_score ≤ 1 ∧
      0 ≤ v.amplification_factor) :
    CorrelatedNarrative.validated v = .ok v := by
  unfold CorrelatedNarrative.validated
  exact if_pos h

theorem CorrelatedNarrative.validated_inv {v c : CorrelatedNarrative}
    (h : CorrelatedNarrative.validated v = .ok c) : c = v := by
  unfold CorrelatedNarrative.validated at h
  split at h
  · cases h
    rfl
  · cases h

/-- Claim C1 (amended): when the entity-overlap correlation emits, its
`confidence_score` equals
`min(0.95, 0.5·jaccard + 0.25·(matches_signals/10) + 0.25·(matches_news/5))`
— the per-term ratios are *not* clamped to 1 (the spec's inner `min(1, ·)`
does not exist in the code). -/
theorem C1_entity_confidence :
    ∀ (cfg : CorrelationConfig) (ctx : ExtCtx) (now : ℤ)
      (tweets : List TweetItem) (news_items : List NewsItem)
      (l : List CorrelatedNarrative) (c : CorrelatedNarrative),
      correlate_by_entities cfg ctx now tweets news_items
        (extract_tweet_entities tweets) (extract_news_entities news_items) =
        .ok l →
      c ∈ l →
      c.confidence_score =
        (let allT := combined_tweet_entities (extract_tweet_entities tweets)
         let allN := combined_news_entities (extract_news_entities news_items)
         let shared := sInter allT allN
         let jaccard : ℚ :=
           (shared.length : ℚ) / ((sUnion allT allN).length : ℚ)
         let mt := tweets.filter
           (fun t => !((sInter (tweet_entity_set t) shared).isEmpty))
         let mn := news_items.filter
           (fun n => !((sInter (news_entity_set n) shared).isEmpty))
         min (0.95 : ℚ)
           (jaccard * 0.5 + ((mt.length : ℚ) / 10) * 0.25 +
             ((mn.length : ℚ) / 5) * 0.25)) := by
  intro cfg ctx now tweets news_items l c h hc
  simp only [correlate_by_entities] at h
  split at h
  · cases h
    cases hc
  · split at h
    · cases h
      cases hc
    · split at h
      · cases h
        cases hc
      · cases h
        cases hc
      · rename_i t0 ts n0 ns hmt hmn
        split at h
        · cases h
        · rename_i p ps hpubs
          split at h
          · cases h
          · rename_i corr hval
            cases h
            rw [List.mem_singleton] at hc
            subst hc
            rw [CorrelatedNarrative.validated_inv hval]
            simp only [hmt, hmn]

/-- Modelled from the spec sentence
`confidence = min(0.95, 0.5·jaccard + 0.25·min(1, matches_signals/10) +
0.25·min(1, matches_news/5))` (the claim's formula, with inner clamps). -/
def spec_entity_confidence (jaccard : ℚ)
    (matches_signals matches_news : ℕ) : ℚ :=
  min 0.95 (0.5 * jaccard + 0.25 * min 1 ((matches_signals : ℚ) / 10) +
    0.25 * min 1 ((matches_news : ℚ) / 5))

/-- Counterexample to C1 as stated: 12 tweets tagged `foo` against one news
item tagged `foo` give entity-set Jaccard 1 with 12 matching signals and 1
matching news item.  The code emits confidence
`min(0.95, 0.5 + (12/10)·0.25 + (1/5)·0.25) = 0.85`, while the claimed
formula (inner `min(1, ·)` clamps) gives `0.8`. -/
theorem C1_counterexample :
    (let allT := combined_tweet_entities
       (extract_tweet_entities (List.replicate 12 sampleTweetFoo))
     let allN := combined_news_entities (extract_news_entities [sampleNewsFoo])
     ((sInter allT allN).length : ℚ) / ((sUnion allT allN).length : ℚ) = 1) ∧
    (correlate_by_entities CORRELATION_CONFIG dummyCtx 0
        (List.replicate 12 sampleTweetFoo) [sampleNewsFoo]
        (extract_tweet_entities (List.replicate 12 sampleTweetFoo))
        (extract_news_entities [sampleNewsFoo])).map
      (fun l => l.map (fun c => c.confidence_score)) = .ok [17/20] ∧
    spec_entity_confidence 1 12 1 = 4/5 ∧
    ((17 : ℚ) / 20) ≠ 4/5 := by decide!

/-- The list the entity-overlap correlation emits on one `foo` tweet against
one dated `foo` news item, and its head. -/
def c1WitnessList : List CorrelatedNarrative :=
  (correlate_by_entities CORRELATION_CONFIG dummyCtx 0 [sampleTweetFoo]
    [sampleNewsFoo] (extract_tweet_entities [sampleTweetFoo])
    (extract_news_entities [sampleNewsFoo])).toOption.getD []

def c1Head : CorrelatedNarrative :=
  c1WitnessList.headD { correlation_id := "", title := "", detected_at := 0 }

/-- Witness for C1 (amended) on one `foo` tweet against one dated `foo` news
item: jaccard 1, one matching signal, one matching news item, so the emitted
confidence is `min(0.95, 0.5 + 0.025 + 0.05) = 0.575`. -/
theorem C1_entity_confidence_witness :
    correlate_by_entities CORRELATION_CONFIG dummyCtx 0 [sampleTweetFoo]
      [sampleNewsFoo] (extract_tweet_entities [sampleTweetFoo])
      (extract_news_entities [sampleNewsFoo]) = .ok c1WitnessList ∧
    c1Head ∈ c1WitnessList ∧
    c1Head.confidence_score = 23/40 := by
  refine ⟨by decide!, by decide!, ?_⟩
  rw [C1_entity_confidence CORRELATION_CONFIG dummyCtx 0 [sampleTweetFoo]
    [sampleNewsFoo] c1WitnessList c1Head (by decide!) (by decide!)]
  decide!

/-! ## Spike-to-coverage correlation: claim C9 -/

theorem spike_matching_pub {cfg : CorrelationConfig} {spike : VelocitySpike}
    {news_items : List NewsItem} {n : NewsItem}
    (hn : n ∈ spike_matching_news cfg spike news_items) :
    n.published_at.isSome := by
  simp only [spike_matching_news] at hn
  obtain ⟨-, hp⟩ := List.mem_filter.1 hn
  simp only [Bool.and_eq_true] at hp
  obtain ⟨-, hp2⟩ := hp
  cases hps : n.published_at with
  | none => rw [hps] at hp2; cases hp2
  | some p => rfl

theorem spike_matching_filterMap_nil {cfg : CorrelationConfig}
    {spike : VelocitySpike} {news_items : List NewsItem}
    (h : (spike_matching_news cfg spike news_items).filterMap
      (fun n => n.published_at) = []) :
    spike_matching_news cfg spike news_items = [] := by
  cases hm : spike_matching_news cfg spike news_items with
  | nil => rfl
  | cons m rest =>
    exfalso
    have hp := spike_matching_pub (hm ▸ List.mem_cons_self m rest)
    rw [hm, List.filterMap_cons] at h
    cases hps : m.published_at with
    | none => rw [hps] at hp; cases hp
    | some p => rw [hps] at h; cases h

theorem correlate_one_spike_ok (cfg : CorrelationConfig) (ctx : ExtCtx)
    (now : ℤ) (news_items : List NewsItem) (spike : VelocitySpike)
    (hm : 1 ≤ spike.magnitude) :
    ∃ c?, correlate_one_spike cfg ctx now news_items spike = .ok c? := by
  have hlen : (0 : ℚ) ≤
      ((spike_matching_news cfg spike news_items).length : ℚ) :=
    Nat.cast_nonneg _
  simp only [correlate_one_spike]
  split
  · exact ⟨none, rfl⟩
  · rename_i p ps heq
    rw [CorrelatedNarrative.validated_of_bounds ?_]
    · exact ⟨some _, rfl⟩
    · dsimp only
      refine ⟨?_, ?_, le_trans zero_le_one hm⟩
      · split
        · apply le_min
          · norm_num
          · nlinarith
        · apply le_min
          · norm_num
          · nlinarith
      · split
        · exact (min_le_left _ _).trans (by norm_num)
        · exact (min_le_left _ _).trans (by norm_num)

theorem cbs_loop_filterMap (cfg : CorrelationConfig) (ctx : ExtCtx)
    (now : ℤ) (news_items : List NewsItem) :
    ∀ sl : List VelocitySpike, (∀ s ∈ sl, 1 ≤ s.magnitude) →
      cbs_loop cfg ctx now news_items sl = .ok (sl.filterMap (fun s =>
        match correlate_one_spike cfg ctx now news_items s with
        | .ok c? => c?
        | .error _ => none)) := by
  intro sl
  induction sl with
  | nil => intro _; rfl
  | cons spike rest ih =>
    intro hmag
    obtain ⟨c?, hc⟩ := correlate_one_spike_ok cfg ctx now news_items spike
      (hmag spike (List.mem_cons_self _ _))
    have hrest := ih (fun s hs => hmag s (List.mem_cons_of_mem _ hs))
    simp only [cbs_loop, List.filterMap_cons, hc, hrest]
    cases c? with
    | none => rfl
    | some corr => rfl

/-- Claim C9 (confirmed): spike-to-coverage correlation considers only the
top-5 spikes; for each such spike a correlation is emitted iff some news item
matches the spiking entity within the temporal window (no matching dated
coverage means no correlation for that spike); the emitted confidence is
`min(0.9, 0.5 + 0.1·magnitude + 0.1·matches)` when the earliest matching
news follows the spike peak (positive lead/lag) and is capped at `0.7`
otherwise. -/
theorem C9_spike_coverage :
    ∀ (cfg : CorrelationConfig) (ctx : ExtCtx) (now : ℤ)
      (spikes : List VelocitySpike) (news_items : List NewsItem),
      (∀ s ∈ spikes, 1 ≤ s.magnitude) →
      (∃ l, correlate_by_spikes cfg ctx now spikes news_items = .ok l ∧
        l = (spikes.take 5).filterMap (fun s =>
          match correlate_one_spike cfg ctx now news_items s with
          | .ok c? => c?
          | .error _ => none)) ∧
      (∀ s ∈ spikes.take 5, ∀ c?,
        correlate_one_spike cfg ctx now news_items s = .ok c? →
        (c?.isSome ↔ spike_matching_news cfg s news_items ≠ []) ∧
        (∀ c, c? = some c → ∀ p ps,
          (spike_matching_news cfg s news_items).filterMap
            (fun n => n.published_at) = p :: ps →
          (c.confidence_score =
            (if 0 < ((ps.foldl min p - s.spike_peak : ℤ) : ℚ) / 3600 then
              min 0.9 (0.5 + s.magnitude * 0.1 +
                ((spike_matching_news cfg s news_items).length : ℚ) * 0.1)
            else
              min 0.7 (0.3 + s.magnitude * 0.1 +
                ((spike_matching_news cfg s news_items).length : ℚ) * 0.1))) ∧
          (((ps.foldl min p - s.spike_peak : ℤ) : ℚ) / 3600 ≤ 0 →
            c.confidence_score ≤ 0.7))) := by
  intro cfg ctx now spikes news_items hmag
  constructor
  · refine ⟨_, ?_, rfl⟩
    unfold correlate_by_spikes
    exact cbs_loop_filterMap cfg ctx now news_items (spikes.take 5)
      (fun s hs => hmag s (List.mem_of_mem_take hs))
  · intro s hs5 c? hok
    simp only [correlate_one_spike] at hok
    split at hok
    · rename_i hnil
      cases hok
      constructor
      · simp [spike_matching_filterMap_nil hnil]
      · intro c hc
        cases hc
    · rename_i p ps heq
      split at hok
      · cases hok
      · rename_i corr hval
        cases hok
        constructor
        · simp only [Option.isSome_some, true_iff]
          intro hnil
          rw [hnil] at heq
          cases heq
        · intro c hc p' ps' heq'
          rw [Option.some_inj] at hc
          subst hc
          rw [heq] at heq'
          cases heq'
          rw [CorrelatedNarrative.validated_inv hval]
          dsimp only
          constructor
          · rfl
          · intro hle
            rw [if_neg (not_lt.2 hle)]
            exact min_le_left _ _

/-- A spike and a dated, entity-matching news item for the C9 witness. -/
def sampleSpikeFoo : VelocitySpike :=
  { entity := "foo", velocity := 1, baseline_velocity := 3/10,
    magnitude := 10/3, spike_start := -3600, spike_peak := 0,
    sample_tweet_ids := ["1"] }

def sampleNewsTitled : NewsItem :=
  { id := "n2", title := "foo", summary := "", url := "u", source := "s",
    source_url := "su", category := .ai_ml, relevance_score := 1/2,
    published_at := some 3600 }

/-- Witness for C9: one spike (`foo`, magnitude 10/3) and one matching news
item published one hour later yields exactly one correlation, with
confidence `min(0.9, 0.5 + 10/3·0.1 + 1·0.1) = 0.9`. -/
theorem C9_spike_coverage_witness :
    (correlate_by_spikes CORRELATION_CONFIG dummyCtx 0 [sampleSpikeFoo]
        [sampleNewsTitled]).map
      (fun l => l.map (fun c => c.confidence_score)) = .ok [9/10] := by
  obtain ⟨⟨l, hok, hl⟩, -⟩ := C9_spike_coverage CORRELATION_CONFIG dummyCtx 0
    [sampleSpikeFoo] [sampleNewsTitled] (by decide!)
  rw [hok]
  simp only [Except.map]
  rw [hl]
  decide!

/-! ## LLM fallback: claim C4 -/

/-- Claim C4 (confirmed): if the LLM call raises, or its text holds no brace
block, or the found block fails JSON parsing, `analyze_unified` returns the
5 most recently published RSS items, each tagged urgency `normal` and
relevance/confidence `0.5`, with the fallback note — no exception escapes. -/
theorem C4_llm_fallback :
    ∀ (model : String) (category : Category) (rss_items : List NewsItem)
      (twitter_signals : Option (List TwitterSignal))
      (prediction_markets : Option (List PredictionMarket))
      (now duration_ms : ℤ) (response : Except Unit LLMResponse)
      (parse : String → Except Unit ParsedUnified),
      rss_items ≠ [] →
      (response = .error () ∨
        ∃ r, response = .ok r ∧
          (extract_json_block r.text = none ∨
            ∃ jtxt, extract_json_block r.text = some jtxt ∧
              parse jtxt = .error ())) →
      (let out := analyze_unified model category rss_items twitter_signals
        prediction_markets now duration_ms response parse
       out.agent_notes = some "Fallback analysis - LLM unavailable" ∧
       out.items = ((sort_by_recency_desc rss_items).take 5).map
         (fallback_item category now) ∧
       ∀ a ∈ out.items,
         a.urgency = .normal ∧ a.relevance_score = 1/2 ∧
           a.confidence = 1/2) := by
  intro model category rss_items twitter_signals prediction_markets now
    duration_ms response parse hne hbad
  have hfb : analyze_unified model category rss_items twitter_signals
      prediction_markets now duration_ms response parse =
      fallback_analysis category rss_items
        ((if rss_items = [] then [] else [SourceType.rss]) ++
          (if twitter_signals.getD [] = [] then [] else [SourceType.twitter]) ++
          (if prediction_markets.getD [] = [] then []
            else [SourceType.polymarket]))
        ((if twitter_signals.getD [] = [] then [SourceType.twitter] else []) ++
          (if prediction_markets.getD [] = [] then [SourceType.polymarket]
            else []))
        now duration_ms := by
    rcases hbad with hresp | ⟨r, hresp, hjson | ⟨jtxt, hjson, hparse⟩⟩
    · subst hresp
      simp only [analyze_unified]
      rw [if_neg hne]
    · subst hresp
      simp only [analyze_unified]
      rw [if_neg hne]
      rw [hjson]
    · subst hresp
      simp only [analyze_unified]
      rw [if_neg hne, hjson]
      dsimp only
      rw [hparse]
  simp only [hfb]
  refine ⟨rfl, rfl, ?_⟩
  intro a ha
  simp only [fallback_analysis] at ha
  obtain ⟨x, -, rfl⟩ := List.mem_map.1 ha
  exact ⟨rfl, rfl, rfl⟩

/-- An older dated news item for the C4 witness. -/
def sampleNewsOld : NewsItem :=
  { id := "n0", title := "old", summary := "", url := "u", source := "s",
    source_url := "su", category := .ai_ml, relevance_score := 1/2,
    published_at := some 100 }

/-- Witness for C4 at a failing LLM call over two dated items: the fallback
note is set and the items come back most-recent-first with neutral scores. -/
theorem C4_llm_fallback_witness :
    (analyze_unified "m" .ai_ml [sampleNewsOld, sampleNewsTitled] none none 0 0
        (.error ()) (fun _ => .error ())).agent_notes =
      some "Fallback analysis - LLM unavailable" ∧
    (analyze_unified "m" .ai_ml [sampleNewsOld, sampleNewsTitled] none none 0 0
        (.error ()) (fun _ => .error ())).items.map
      (fun a => (a.id, a.urgency, a.relevance_score, a.confidence)) =
      [("n2", .normal, 1/2, 1/2), ("n0", .normal, 1/2, 1/2)] := by
  have h := C4_llm_fallback "m" .ai_ml [sampleNewsOld, sampleNewsTitled] none
    none 0 0 (.error ()) (fun _ => .error ())
    (by decide!) (Or.inl rfl)
  refine ⟨h.1, ?_⟩
  rw [h.2.1]
  decide!

/-! ## Reporter selection validation: claim C2 -/

def sampleRawOne : RawFeedItem :=
  { id := "r1", title := "t1", link := "l1", description := "d1",
    source := "s", source_url := "su", published := none }

def sampleRawTwo : RawFeedItem :=
  { id := "r2", title := "t2", link := "l2", description := "d2",
    source := "s", source_url := "su", published := none }

/-- A selection whose urgency string is not a member of the `Urgency` enum. -/
def sampleSelBadUrgency : SelReporter :=
  { item_number := some (.int 1), urgency := some "urgent" }

/-- A well-formed selection of the second item. -/
def sampleSelGood : SelReporter :=
  { item_number := some (.int 2), urgency := some "normal",
    relevance_score := some (4/5) }

/-- A selection pointing past the end of the item list. -/
def sampleSelOutOfRange : SelReporter :=
  { item_number := some (.int 7) }

/-- Counterexample to C2 as stated: a batch holding one record with the
unknown urgency string `"urgent"` and one valid record is rejected wholesale
(`ValueError` from `Urgency(...)` aborts the conversion loop, so the
handler's outer `except` turns the run into a 500) — the valid record alone
would have produced a `NewsItem`. -/
theorem C2_counterexample :
    reporters_selected_loop .ai_ml [sampleRawOne, sampleRawTwo] []
        [sampleSelBadUrgency, sampleSelGood] = .error .valueError ∧
    reporters_selected_loop .ai_ml [sampleRawOne, sampleRawTwo] []
        [sampleSelGood] =
      .ok [{ id := "r2", title := "t2", summary := "d2", url := "l2",
             source := "s", source_url := "su", category := .ai_ml,
             urgency := .normal, relevance_score := 4/5 }] := by decide!

theorem NewsItem.validated_error_of_relevance (n : NewsItem)
    (h : ¬ (0 ≤ n.relevance_score ∧ n.relevance_score ≤ 1)) :
    NewsItem.validated n = .error .validationError := by
  unfold NewsItem.validated
  rw [if_neg]
  intro hc
  exact h ⟨hc.1, hc.2.1⟩

/-- Claim C2 (amended): only an out-of-range `item_number` rejects just the
offending record (the loop continues with the rest of the batch); a record
whose urgency string is outside the enum raises `ValueError`, and one whose
relevance score lies outside `[0,1]` raises a pydantic validation error —
either exception aborts the whole batch. -/
theorem C2_validation_behavior :
    ∀ (category : Category) (new_items prediction_markets : List RawFeedItem)
      (sel : SelReporter) (rest : List SelReporter),
      (¬ (0 ≤ normNum sel.item_number 1 - 1 ∧
          normNum sel.item_number 1 - 1 < (new_items.length : ℤ)) →
        reporters_selected_loop category new_items prediction_markets
          (sel :: rest) =
        reporters_selected_loop category new_items prediction_markets rest) ∧
      ((0 ≤ normNum sel.item_number 1 - 1 ∧
          normNum sel.item_number 1 - 1 < (new_items.length : ℤ)) →
        Urgency.ofString (sel.urgency.getD "normal") = none →
        reporters_selected_loop category new_items prediction_markets
          (sel :: rest) = .error .valueError) ∧
      ((0 ≤ normNum sel.item_number 1 - 1 ∧
          normNum sel.item_number 1 - 1 < (new_items.length : ℤ)) →
        ∀ urg, Urgency.ofString (sel.urgency.getD "normal") = some urg →
        ¬ (0 ≤ sel.relevance_score.getD (1/2) ∧
            sel.relevance_score.getD (1/2) ≤ 1) →
        reporters_selected_loop category new_items prediction_markets
          (sel :: rest) = .error .validationError) := by
  intro category new_items prediction_markets sel rest
  refine ⟨?_, ?_, ?_⟩
  · intro hoob
    simp only [reporters_selected_loop]
    rw [if_neg hoob]
  · intro hin hurg
    have hidx : (normNum sel.item_number 1 - 1).toNat < new_items.length := by
      omega
    simp only [reporters_selected_loop]
    rw [if_pos hin, List.getElem?_eq_getElem hidx, hurg]
  · intro hin urg hurg hrel
    have hidx : (normNum sel.item_number 1 - 1).toNat < new_items.length := by
      omega
    simp only [reporters_selected_loop]
    rw [if_pos hin, List.getElem?_eq_getElem hidx, hurg]
    dsimp only
    rw [NewsItem.validated_error_of_relevance _ ?_]
    exact hrel

/-- A selection whose relevance score lies outside `[0,1]`. -/
def sampleSelBadRelevance : SelReporter :=
  { item_number := some (.int 1), urgency := some "normal",
    relevance_score := some (3/2) }

/-- Witness for C2 (amended), all three conjuncts at concrete inputs: an
out-of-range selection is skipped while the batch continues, a bad urgency
string aborts with `ValueError`, and an out-of-bounds relevance score aborts
with a validation error. -/
theorem C2_validation_behavior_witness :
    reporters_selected_loop .ai_ml [sampleRawOne, sampleRawTwo] []
        [sampleSelOutOfRange, sampleSelGood] =
      reporters_selected_loop .ai_ml [sampleRawOne, sampleRawTwo] []
        [sampleSelGood] ∧
    reporters_selected_loop .ai_ml [sampleRawOne, sampleRawTwo] []
        [sampleSelBadUrgency] = .error .valueError ∧
    reporters_selected_loop .ai_ml [sampleRawOne, sampleRawTwo] []
        [sampleSelBadRelevance] = .error .validationError := by
  refine ⟨?_, ?_, ?_⟩
  · exact (C2_validation_behavior .ai_ml [sampleRawOne, sampleRawTwo] []
      sampleSelOutOfRange [sampleSelGood]).1 (by decide!)
  · exact (C2_validation_behavior .ai_ml [sampleRawOne, sampleRawTwo] []
      sampleSelBadUrgency []).2.1 (by decide!) (by decide!)
  · exact (C2_validation_behavior .ai_ml [sampleRawOne, sampleRawTwo] []
      sampleSelBadRelevance []).2.2 (by decide!) .normal (by decide!)
      (by decide!)

end Sigint
